import Mathlib

/-
Verification development for the wptools repository.

Part 1 models `src/wp_summary.py`: the lead-text extractor `_summary`
(a single-pass scanner over wikitext lines tracking template-brace depth)
and the `_parse` helper that builds `{title, wikitext}` records.

Part 2 models `src/wptools/core.py`: the `WPTools` object state and the
data-setting / request methods.  The helper modules `utils`, `fetch` and
`html2text` are not part of the repository sources; their functions are
taken as parameters (a `Utils` record of abstract functions), so every
theorem quantifies over their behaviour.
-/

set_option autoImplicit false

namespace WpSummary

/-- Number of non-overlapping occurrences of the two-character pattern
`ab` in a character list, as computed by Python
`len(re.findall(pattern, line))` for the literal two-character patterns
`'{{'` and `'}}'` (wp_summary.py lines 94-95). -/
def count2 (a b : Char) : List Char → Nat
  | [] => 0
  | [_] => 0
  | x :: y :: rest =>
    if x = a ∧ y = b then 1 + count2 a b rest
    else count2 a b (y :: rest)

/-- Count of `'{{'` in a line: `len(re.findall(r'{{', line))`. -/
def opens (line : String) : Nat := count2 '{' '{' line.data

/-- Count of `'}}'` in a line: `len(re.findall(r'}}', line))`. -/
def closes (line : String) : Nat := count2 '}' '}' line.data

/-- Net change of the running brace depth contributed by one line
(wp_summary.py lines 94-95: `braces += ...; braces -= ...`). -/
def deltaLine (line : String) : Int := (opens line : Int) - (closes line : Int)

/-- Python `str.startswith`, computed on the character lists. -/
def pyStartsWith (s pre : String) : Bool := List.isPrefixOf pre.data s.data

/-- Python `str.endswith`, computed on the character lists. -/
def pyEndsWith (s suf : String) : Bool := List.isSuffixOf suf.data s.data

/-- Python `re.search(r'^{{.*}}$', line)` succeeds iff the line starts
with `{{`, ends with `}}` and has length at least 4 (lines contain no
newline, and `.` matches every other character). -/
def isFence (l : String) : Bool :=
  pyStartsWith l "\x7b\x7b" && pyEndsWith l "\x7d\x7d" && decide (4 ≤ l.data.length)

/-- Python `re.search` for the wikilink shape `[[.*]]` anchored at both ends. -/
def isFence1 (l : String) : Bool :=
  pyStartsWith l "[[" && pyEndsWith l "]]" && decide (4 ≤ l.data.length)

/-- Python `re.search` for the comment shape `<!--.*-->` anchored at both ends. -/
def isFence2 (l : String) : Bool :=
  pyStartsWith l "<!--" && pyEndsWith l "-->" && decide (7 ≤ l.data.length)

/-- A line matching any of the three fenced shapes (wp_summary.py lines 90-92). -/
def fenced (l : String) : Bool := isFence l || isFence1 l || isFence2 l

/-- ASCII whitespace recognised by Python `str.lstrip()`. -/
def pyIsSpace (c : Char) : Bool :=
  c = ' ' || c = '\t' || c = '\n' || c = '\r' || c = '\x0b' || c = '\x0c'

/-- Python `line.lstrip()` (wp_summary.py line 113). -/
def lstrip (s : String) : String := ⟨s.data.dropWhile pyIsSpace⟩

/-- The `mark` computed for each processed line (wp_summary.py lines
104-110).  The source encodes marks as the strings `">"`, `"*"`,
`str(braces)` and `"0"`; only the comparison `mark == ">"` is ever used,
so the marks are modelled as an enumeration: `keep` is `">"`, `fence` is
`"*"`, `num b` is `str(b)` for a positive depth `b`, and `exitZero` is
`"0"`. -/
inductive Mark
  | keep
  | fence
  | num (b : Int)
  | exitZero
  deriving DecidableEq

/-- The mark assigned to line `l` when the scanner state before the line
is temple-flag `t` and brace depth `b` (wp_summary.py lines 94-110).
The `exited` override (line 109-110) is applied first; it is mutually
exclusive with the `braces > 0` branch since it requires the updated
depth to be zero. -/
def markOf (t : Bool) (b : Int) (l : String) : Mark :=
  let b' := b + deltaLine l
  let t0 := if 0 < b' then true else t
  if t0 && decide (b' = 0) then .exitZero
  else if fenced l then .fence
  else if 0 < b' then .num b'
  else .keep

/-- The temple flag after processing line `l` from temple-flag `t` and
depth `b` (wp_summary.py lines 97-102). -/
def nextTemple (t : Bool) (b : Int) (l : String) : Bool :=
  let b' := b + deltaLine l
  let t0 := if 0 < b' then true else t
  if t0 && decide (b' = 0) then false else t0

/-- Loop state of `_summary`: the `temple` flag, the running `braces`
depth and the accumulated `output` list. -/
structure SState where
  temple : Bool
  braces : Int
  output : List String
  deriving DecidableEq

/-- Initial loop state (wp_summary.py lines 81-83). -/
def initS : SState := ⟨false, 0, []⟩

/-- One iteration of the `for line in lines` loop body, after the
heading check (wp_summary.py lines 90-113): the line is appended
(lstripped) exactly when its mark is `">"`. -/
def stepLine (st : SState) (l : String) : SState :=
  { temple := nextTemple st.temple st.braces l
    braces := st.braces + deltaLine l
    output := if markOf st.temple st.braces l = .keep then st.output ++ [lstrip l] else st.output }

/-- The scanning loop of `_summary` (wp_summary.py lines 86-113),
including the `break` on the first line starting with `"="`. -/
def summaryLoop : SState → List String → SState
  | st, [] => st
  | st, l :: rest => if pyStartsWith l "=" then st else summaryLoop (stepLine st l) rest

/-- Helper for splitting a character list at newline characters. -/
def splitLinesAux : List Char → List Char → List String
  | [], acc => [⟨acc.reverse⟩]
  | c :: cs, acc =>
    if c = '\n' then ⟨acc.reverse⟩ :: splitLinesAux cs []
    else splitLinesAux cs (c :: acc)

/-- Python `wikitext.split("\n")` (wp_summary.py line 85): split at each
newline character, keeping empty pieces. -/
def pyLines (w : String) : List String := splitLinesAux w.data []

/-- The `output` list accumulated by `_summary` before joining. -/
def summaryLines (w : String) : List String := (summaryLoop initS (pyLines w)).output

/-- `_summary(wikitext)` (wp_summary.py lines 80-117):
`"\n".join(output)`. -/
def summary (w : String) : String := String.intercalate "\n" (summaryLines w)

/-- The `(mark, line)` pairs produced for the processed lines (those
strictly before the first heading line), mirroring the per-line `mark`
of the source. -/
def marks (t : Bool) (b : Int) : List String → List (Mark × String)
  | [] => []
  | l :: rest =>
    if pyStartsWith l "=" then []
    else (markOf t b l, l) :: marks (nextTemple t b l) (b + deltaLine l) rest

/-- Running brace depth before processing line `i`, starting from depth
`b`: the sum of `deltaLine` over the first `i` lines. -/
def depthBefore (b : Int) : List String → Nat → Int
  | _, 0 => b
  | [], _ + 1 => b
  | l :: rest, i + 1 => depthBefore (b + deltaLine l) rest i

/-- Running brace depth after processing line `i` ("the resulting
depth" on line `i`). -/
def depthAt (b : Int) (ls : List String) (i : Nat) : Int := depthBefore b ls (i + 1)

/-- Index of the first line starting with `"="` (list length if none). -/
def headIdx (ls : List String) : Nat := ls.findIdx (fun l => pyStartsWith l "=")

/-- Fold state for expressing `_summary` as a left-to-right fold: the
`stopped` flag records that the heading `break` was taken. -/
structure FoldState where
  stopped : Bool
  st : SState

/-- Single fold step visiting one line. -/
def foldStep (f : FoldState) (l : String) : FoldState :=
  if f.stopped then f
  else if pyStartsWith l "=" then { f with stopped := true }
  else { stopped := false, st := stepLine f.st l }

/-- A page record from the MediaWiki API JSON: its title and the
`content` of each entry of `page["revisions"]`. -/
structure ApiPage where
  title : String
  revisions : List String

/-- An entry of the list returned by `_parse`. -/
structure InfoSummary where
  title : String
  wikitext : String
  deriving DecidableEq

/-- `_parse` (wp_summary.py lines 120-134) over the list of pages of the
decoded API JSON.  `none` models the `RuntimeError` raised when a page
lacks `revisions[0]` (the bare `except` re-raises).  A page is appended
only when its extracted summary is truthy, i.e. non-empty
(lines 127-130). -/
def wpParse : List ApiPage → Option (List InfoSummary)
  | [] => some []
  | p :: rest =>
    match p.revisions with
    | [] => none
    | w :: _ =>
      let s := summary w
      match wpParse rest with
      | none => none
      | some rs => some (if s = "" then rs else ⟨p.title, s⟩ :: rs)

end WpSummary

namespace WPTools

/-- A JSON value as it may appear in a Wikidata snak or in the
`wikidata` mapping: a string, a flat object (association list), or
JSON null / Python `None`. -/
inductive WdValue
  | str (s : String)
  | obj (entries : List (String × String))
  | null
  deriving DecidableEq

/-- A value stored by `_update_wikidata`: a single value, or the list
built when one label receives several values. -/
inductive WdStored
  | one (v : WdValue)
  | many (vs : List WdValue)
  deriving DecidableEq

/-- A value of `self.image` / `self.image_wikidata`: a media-URL string
or, for a Wikidata image claim that collected several values, the raw
list (core.py lines 491-499). -/
inductive PyVal
  | str (s : String)
  | lst (vs : List WdValue)
  deriving DecidableEq

/-- A value of the `self.images` dict: the raw image name (`pimage`,
`qimage`), a JSON object (`qthumb`, `rimage`, `rthumb`), or a list
(`wimage` of a multi-valued claim). -/
inductive ImgVal
  | str (s : String)
  | obj (entries : List (String × String))
  | lst (vs : List WdValue)
  deriving DecidableEq

/-- Python truthiness of an optional string (`None` and `""` are falsy). -/
def truthyS : Option String → Bool
  | none => false
  | some s => !s.data.isEmpty

/-- Python truthiness of an optional integer (`None` and `0` are falsy). -/
def truthyN : Option Nat → Bool
  | none => false
  | some n => !(n == 0)

/-- Python truthiness of an optional list/dict (`None`, `[]` are falsy). -/
def truthyD {α : Type} : Option (List α) → Bool
  | none => false
  | some l => !l.isEmpty

/-- Python truthiness of an optional image value. -/
def truthyPV : Option PyVal → Bool
  | none => false
  | some (.str s) => !s.data.isEmpty
  | some (.lst vs) => !vs.isEmpty

/-- Python `"%s" % x` for an optional string (`None` prints as `"None"`). -/
def pyStr : Option String → String
  | none => "None"
  | some s => s

/-- Rendering of an image value under `"%s"` formatting.  Lists are
rendered elementwise; the exact `repr` quoting of Python is not
modelled (no claim depends on the rendered text of a list). -/
def pyStrPV : Option PyVal → String
  | none => "None"
  | some (.str s) => s
  | some (.lst vs) =>
    "[" ++ String.intercalate ", "
      (vs.map (fun v => match v with
        | .str s => s
        | .obj _ => "<obj>"
        | .null => "None")) ++ "]"

/-- Python `dict.get` over the association-list model (first match). -/
def alookup {α : Type} : List (String × α) → String → Option α
  | [], _ => none
  | (k, v) :: rest, key => if k = key then some v else alookup rest key

/-- Python `d[k] = v` on an association list: replace the first binding
of `k` in place, or append a new binding. -/
def dictInsert {α : Type} (m : List (String × α)) (k : String) (v : α) :
    List (String × α) :=
  if (alookup m k).isSome then
    m.map (fun p => if p.1 = k then (k, v) else p)
  else m ++ [(k, v)]

/-- Python `title.replace(' ', '_')`: every space becomes an underscore. -/
def replace_spaces (s : String) : String :=
  ⟨s.data.map (fun c => if c = ' ' then '_' else c)⟩

/-- Non-overlapping left-to-right removal of a two-character pattern,
i.e. Python `s.replace(ab, '')` for a two-character `ab`. -/
def removePairAll (a b : Char) : List Char → List Char
  | [] => []
  | [c] => [c]
  | c :: d :: rest =>
    if c = a ∧ d = b then removePairAll a b rest
    else c :: removePairAll a b (d :: rest)

/-- `image.replace('[[', '').replace(']]', '')` (core.py line 282). -/
def stripLinkBrackets (s : String) : String :=
  ⟨removePairAll ']' ']' (removePairAll '[' '[' s.data)⟩

/-- Python `str.strip()` over the ASCII whitespace set. -/
def pyStrip (s : String) : String :=
  ⟨((s.data.dropWhile WpSummary.pyIsSpace).reverse.dropWhile WpSummary.pyIsSpace).reverse⟩

/-- A cached request record (`g_parse`, `g_query`, `g_rest`,
`g_claims`, `g_wikidata`): the query string and the response body.
`response = none` models a body that cannot be decoded as JSON
(`utils.json_loads` raises `ValueError`); `some data` is the decoded
JSON.  `html` is the extra `g_rest['html']` entry written by
`__get_lead_rest`. -/
structure GCache (α : Type) where
  query : String
  response : Option α
  html : Option String := none
  deriving DecidableEq

/-- Decoded fields of `data['parse']` used by `_set_parse_data`. -/
structure ParseData where
  parsetree : Option String
  iwlinks : Option (List (String × String))
  pageid : Option Nat
  title : Option String
  properties : Option (List (String × String))
  wikitext : Option String
  deriving DecidableEq

/-- Decoded JSON of an `action=parse` response. -/
structure ParsePayload where
  parse : Option ParseData
  deriving DecidableEq

/-- Decoded fields of one element of `data['query']['pages']`. -/
structure QueryPage where
  missing : Bool
  extract : Option String
  pageimage : Option String
  thumbnail : Option (List (String × String))
  pageid : Option Nat
  pageprops : Option (List (String × String))
  title : Option String
  fullurl : Option String
  deriving DecidableEq

/-- Decoded fields of `data['query']` of an `action=query` response;
`random` holds the titles of the `random` entries. -/
structure QueryData where
  pages : Option (List QueryPage)
  random : Option (List String)
  deriving DecidableEq

/-- Decoded JSON of an `action=query` response. -/
structure QueryPayload where
  query : Option QueryData
  deriving DecidableEq

/-- One entry of the RESTBase `sections` array; each item is a flat
JSON object. -/
structure RestSection where
  items : List (List (String × String))
  deriving DecidableEq

/-- Decoded JSON of a RESTBase `/page/mobile-text/` response. -/
structure RestPayload where
  detail : Option (List (String × String))
  description : Option String
  image : Option (List (String × String))
  thumb : Option (List (String × String))
  displaytitle : Option String
  redirected : Option String
  lastmodified : Option String
  id : Option Nat
  sections : Option (List RestSection)
  deriving DecidableEq

/-- A `labels`/`descriptions` property of a Wikidata entity: keyed by
language (`{lang: {value: v}}`) or a bare `{value: v}` object. -/
inductive EntityProp
  | byLang (entries : List (String × String))
  | direct (value : String)
  deriving DecidableEq

/-- A Wikidata entity as read by `_set_wikidata` and `get_claims`.
Each claim property carries its `mainsnak.datavalue.value` slot;
`none` there models a missing level (Python raises through the
uncaught `AttributeError`/`ValueError`). -/
structure WdEntity where
  id : Option String
  title : Option String
  claims : Option (List (String × List (Option WdValue)))
  descriptions : Option EntityProp
  labels : Option EntityProp
  sitelinks : Option (List (String × String))
  modified : Option String
  deriving DecidableEq

/-- Decoded JSON of an `action=wbgetentities` response. -/
structure WdPayload where
  entities : Option (List (String × WdEntity))
  deriving DecidableEq

/-- Decoded JSON of the `get_claims` label request. -/
structure ClaimsPayload where
  entities : Option (List (String × WdEntity))
  deriving DecidableEq

/-- One entry of `data['query']['random']`. -/
structure RandomItem where
  id : Option Nat
  title : Option String
  deriving DecidableEq

/-- Decoded `data['query']` of a random request. -/
structure RandomQuery where
  random : Option (List RandomItem)
  deriving DecidableEq

/-- Decoded JSON of a random request. -/
structure RandomPayload where
  query : Option RandomQuery
  deriving DecidableEq

/-- The functions of the helper modules `utils` and `html2text` and of
`urlparse` that core.py calls.  Those modules are not part of the
repository sources, so their behaviour is a parameter: every theorem
quantifies over an arbitrary `Utils`. -/
structure Utils where
  media_url : WdValue → Option String → String
  wikidata_url : Option String → Option String
  get_infobox : Option String → Option (List (String × String))
  get_links : Option (List (String × String)) → Option (List String)
  html2text : String → String
  snip_html : String → String
  url_scheme : String → String
  url_netloc : String → String

/-- The attribute state of a `WPTools` object (core.py lines 69-129),
plus a `stderr_log` list modelling the lines written via
`utils.stderr`. -/
structure State where
  fatal : Bool := false
  stderr_log : List String := []
  lang : String := "en"
  title : Option String := none
  pageid : Option Nat := none
  description : Option String := none
  extract : Option String := none
  extext : Option String := none
  image : Option PyVal := none
  image_infobox : Option String := none
  image_wikidata : Option PyVal := none
  images : List (String × ImgVal) := []
  infobox : Option (List (String × String)) := none
  label : Option String := none
  lead : Option String := none
  links : Option (List String) := none
  modified : Option String := none
  pageimage : Option String := none
  parsetree : Option String := none
  random : Option String := none
  thumbnail : Option String := none
  url : Option String := none
  urlraw : Option String := none
  wikibase : Option String := none
  wikitext : Option String := none
  wikidata_url : Option String := none
  claims : List (String × String) := []
  props : List (String × List WdValue) := []
  wikidata : List (String × WdStored) := []
  g_parse : Option (GCache ParsePayload) := none
  g_query : Option (GCache QueryPayload) := none
  g_rest : Option (GCache RestPayload) := none
  g_claims : Option (GCache ClaimsPayload) := none
  g_wikidata : Option (GCache WdPayload) := none
  deriving DecidableEq

/-- `WPTools.__init__` (core.py lines 99-129) without the trailing
`get_random()`/`show()` call, which is modelled as a separate
operation. -/
def init_state (args0 : Option String) (lang : Option String)
    (pageid : Option Nat) (wikibase : Option String) : State :=
  { title := match args0 with
      | some t => if t.data.isEmpty then none else some (replace_spaces t)
      | none => none
    lang := match lang with
      | some l => if l.data.isEmpty then "en" else l
      | none => "en"
    pageid := pageid
    wikibase := wikibase }

/-- The standard stderr line of a failed JSON decode (core.py
lines 265, 314, 375, 472, 652). -/
def loadErr (query : String) : String := "Could not load query response: " ++ query

/-- Writing `self.fatal = True` and the decode-failure log line. -/
def markFatal (s : State) (query : String) : State :=
  { s with fatal := true, stderr_log := s.stderr_log ++ [loadErr query] }

/-- `show()` only pretty-prints to stderr (core.py lines 745-797); its
output text is modelled by an opaque marker line. -/
def show_apply (showb : Bool) (s : State) : State :=
  if showb then { s with stderr_log := s.stderr_log ++ ["<show>"] } else s

/-- Python truthiness of a `WdValue`. -/
def wdTruthy : WdValue → Bool
  | .str s => !s.data.isEmpty
  | .obj e => !e.isEmpty
  | .null => false

/-- `[x for x in val if x]` is non-empty: for a string, some character
(every one-character string is truthy); for an object, some truthy key. -/
def wdHasTruthyElem : WdValue → Bool
  | .str s => !s.data.isEmpty
  | .obj e => e.any (fun p => !p.1.data.isEmpty)
  | .null => false

/-- `snak.get(k)` with Python truthiness: a present but empty value is
treated like an absent one by the `if snak.get(...)` chains. -/
def objGetTruthy (e : List (String × String)) (k : String) : Option String :=
  match alookup e k with
  | some s => if s.data.isEmpty then none else some s
  | none => none

/-- The `val` extracted from a snak (core.py lines 430-441): the `id`,
`text` or `time` member of a value object when truthy, else the snak
itself (also for non-object snaks, via the caught `AttributeError`). -/
def snakVal : WdValue → WdValue
  | .obj e =>
    match objGetTruthy e "id" with
    | some s => .str s
    | none =>
      match objGetTruthy e "text" with
      | some s => .str s
      | none =>
        match objGetTruthy e "time" with
        | some s => .str s
        | none => .obj e
  | v => v

/-- `_WIKIPROPS` (core.py lines 29-67). -/
def WIKIPROPS : List (String × String) :=
  [("P17", "country"), ("P18", "image"), ("P27", "citizenship"),
   ("P30", "continent"), ("P31", "instance"), ("P50", "author"),
   ("P57", "director"), ("P86", "composer"), ("P105", "taxon rank"),
   ("P110", "illustrator"), ("P123", "publisher"), ("P135", "movement"),
   ("P136", "genre"), ("P144", "based on"), ("P161", "cast"),
   ("P170", "creator"), ("P171", "parent taxon"), ("P175", "performer"),
   ("P186", "material"), ("P195", "collection"), ("P212", "ISBN"),
   ("P225", "taxon name"), ("P301", "topic"), ("P345", "IMDB"),
   ("P217", "inventory"), ("P276", "location"), ("P279", "subclass"),
   ("P569", "birth"), ("P570", "death"), ("P577", "pubdate"),
   ("P585", "datetime"), ("P625", "coordinates"), ("P655", "translator"),
   ("P658", "tracklist"), ("P800", "work"), ("P856", "website"),
   ("P910", "category"), ("P1773", "attribution"), ("P1779", "creator")]

/-- `props[claim].append(val)` on the `defaultdict(list)` model. -/
def addProp (m : List (String × List WdValue)) (k : String) (v : WdValue) :
    List (String × List WdValue) :=
  if (alookup m k).isSome then
    m.map (fun p => if p.1 = k then (p.1, p.2 ++ [v]) else p)
  else m ++ [(k, [v])]

/-- The inner loop of `_wikidata_props` over the claim objects of one
property id (core.py lines 429-445).  `Except.error` models the
uncaught exception raised for a missing snak level or a falsy value;
the emptiness check happens before the `_WIKIPROPS` filter. -/
def propsOfClaim (props : List (String × List WdValue)) (claim : String) :
    List (Option WdValue) → Except String (List (String × List WdValue))
  | [] => .ok props
  | none :: _ => .error "AttributeError: mainsnak"
  | some snak :: rest =>
    let val := snakVal snak
    if !(wdTruthy val && wdHasTruthyElem val) then
      .error ("ValueError: " ++ claim)
    else
      propsOfClaim
        (if (alookup WIKIPROPS claim).isSome then addProp props claim val else props)
        claim rest

/-- Outer loop of `_wikidata_props` (core.py lines 422-447). -/
def wikidataPropsAux (props : List (String × List WdValue)) :
    List (String × List (Option WdValue)) →
    Except String (List (String × List WdValue))
  | [] => .ok props
  | (claim, snaks) :: rest =>
    match propsOfClaim props claim snaks with
    | .error e => .error e
    | .ok props2 => wikidataPropsAux props2 rest

/-- `_wikidata_props(query_claims)` (core.py lines 422-447). -/
def wikidata_props (qc : List (String × List (Option WdValue))) :
    Except String (List (String × List WdValue)) :=
  wikidataPropsAux [] qc

/-- `utils.is_text(val) and re.match(r'^Q\d+', val)` (core.py
line 458): a string starting with `Q` followed by a digit. -/
def isQid : WdValue → Bool
  | .str s =>
    match s.data with
    | 'Q' :: c :: _ => c.isDigit
    | _ => false
  | _ => false

/-- Python truthiness of a stored `wikidata` entry. -/
def storedTruthy : WdStored → Bool
  | .one w => wdTruthy w
  | .many vs => !vs.isEmpty

/-- `_update_wikidata(label, value)` (core.py lines 509-521): append to
an existing truthy list; wrap an existing truthy non-list together with
the new value; otherwise just store the value. -/
def update_wikidata (m : List (String × WdStored)) (label : String) (v : WdValue) :
    List (String × WdStored) :=
  match alookup m label with
  | some st =>
    if storedTruthy st then
      match st with
      | .one f => dictInsert m label (.many [f, v])
      | .many vs => dictInsert m label (.many (vs ++ [v]))
    else dictInsert m label (.one v)
  | none => m ++ [(label, .one v)]

/-- The inner loop of `_marshal_claims` for one property id (core.py
lines 455-461): a `Q...` string value becomes a pending claim,
everything else goes through `_update_wikidata`. -/
def marshalVals (s : State) (label : String) : List WdValue → State
  | [] => s
  | v :: rest =>
    marshalVals
      (match v with
       | .str q =>
         if isQid (.str q) then { s with claims := dictInsert s.claims q label }
         else { s with wikidata := update_wikidata s.wikidata label (.str q) }
       | w => { s with wikidata := update_wikidata s.wikidata label w })
      label rest

/-- The outer loop of `_marshal_claims` over `self.props` (core.py
lines 455-461). -/
def marshalProps (s : State) : List (String × List WdValue) → State
  | [] => s
  | (propid, vals) :: rest =>
    marshalProps (marshalVals s ((alookup WIKIPROPS propid).getD "") vals) rest

/-- `_marshal_claims(query_claims)` (core.py lines 449-461). -/
def marshal_claims (s : State) (qc : List (String × List (Option WdValue))) :
    Except String State :=
  match wikidata_props qc with
  | .error e => .error e
  | .ok props => .ok (marshalProps { s with props := props } props)

/-- `__get_entity_prop(entity, prop)` (core.py lines 131-139): the
language-keyed value, or the bare `value` member.  (When the language
is absent from a language-keyed property, Python's fallback looks up a
`value` key among the languages and finds none.) -/
def getEntityProp (lang : String) : Option EntityProp → Option String
  | none => none
  | some (.byLang entries) => alookup entries lang
  | some (.direct v) => some v

/-- The inner `set_pimage` of `_set_parse_data` (core.py lines
277-288): strip wikilink brackets, then store the media URL in
`image_infobox` when `self.image` is already truthy, else in
`self.image`; always record the stripped name under `pimage`.  `none`
models the `KeyError` Python would raise for an absent key (call sites
guard on a truthy value). -/
def set_pimage (u : Utils) (s : State) (dic : List (String × String)) (key : String) :
    Option State :=
  match alookup dic key with
  | none => none
  | some image0 =>
    let image := stripLinkBrackets image0
    let s2 :=
      if truthyPV s.image then
        { s with image_infobox := some (u.media_url (.str image) (some s.lang)) }
      else
        { s with image := some (.str (u.media_url (.str image) (some s.lang))) }
    some { s2 with images := dictInsert s2.images "pimage" (.str image) }

/-- The infobox branch of `_set_parse_data` (core.py lines 290-295):
when the extracted infobox is truthy it is stored and the preferred
image key is applied via `set_pimage`. -/
def parse_infobox_step (u : Utils) (s : State) (pdata : ParseData) : Option State :=
  match u.get_infobox pdata.parsetree with
  | none => some s
  | some ib =>
    if ib.isEmpty then some s
    else
      if truthyS (alookup ib "image") then
        set_pimage u { s with infobox := some ib } ib "image"
      else if truthyS (alookup ib "Cover") then
        set_pimage u { s with infobox := some ib } ib "Cover"
      else some { s with infobox := some ib }

/-- The title assignment of `_set_parse_data` (core.py lines 300-301). -/
def parse_title_step (s : State) (pdata : ParseData) : Except String State :=
  if truthyS s.title then .ok s
  else
    match pdata.title with
    | none => .error "AttributeError: parse title"
    | some t => .ok { s with title := some (replace_spaces t) }

/-- The trailing assignments of `_set_parse_data` (core.py lines
302-304). -/
def parse_tail_step (u : Utils) (s : State) (pdata : ParseData) : Except String State :=
  match pdata.properties with
  | none => .error "AttributeError: parse properties"
  | some props =>
    .ok { s with wikibase := alookup props "wikibase_item",
                 wikidata_url := u.wikidata_url (alookup props "wikibase_item"),
                 wikitext := pdata.wikitext }

/-- `_set_parse_data` (core.py lines 257-304).  `Except.error` models
an uncaught Python exception (`LookupError` for a missing `parse`
member, `AttributeError` for a missing title or properties). -/
def set_parse_data (u : Utils) (s : State) : Except String State :=
  match s.g_parse with
  | none => .error "TypeError: g_parse is None"
  | some cache =>
    match cache.response with
    | none => .ok (markFatal s cache.query)
    | some data =>
      match data.parse with
      | none => .error ("LookupError: " ++ cache.query)
      | some pdata =>
        match parse_infobox_step u s pdata with
        | none => .error "KeyError: set_pimage"
        | some s2 =>
          match parse_title_step
              { s2 with links := u.get_links pdata.iwlinks,
                        pageid := pdata.pageid,
                        parsetree := pdata.parsetree } pdata with
          | .error e => .error e
          | .ok s4 => parse_tail_step u s4 pdata

/-- The extract/extext assignments of `_set_query_data` (core.py
lines 325-331). -/
def query_extract_step (u : Utils) (s : State) (page : QueryPage) : State :=
  match page.extract with
  | some e =>
    if e.data.isEmpty then s
    else
      if (u.html2text e).data.isEmpty then { s with extract := some e }
      else { s with extract := some e, extext := some (pyStrip (u.html2text e)) }
  | none => s

/-- The fresh `images` dict built by `_set_query_data` (core.py lines
333-346): `qimage` then `qthumb`, replacing the previous dict. -/
def query_images (page : QueryPage) : List (String × ImgVal) :=
  (match page.pageimage with
   | some p => if p.data.isEmpty then [] else [("qimage", ImgVal.str p)]
   | none => [])
  ++ (match page.thumbnail with
      | some th => if th.isEmpty then [] else [("qthumb", ImgVal.obj th)]
      | none => [])

/-- The `pageimage` assignment of `_set_query_data` (core.py lines
334-337). -/
def query_pageimage_step (u : Utils) (s : State) (page : QueryPage) : State :=
  match page.pageimage with
  | some p =>
    if p.data.isEmpty then s
    else { s with pageimage := some (u.media_url (.str p) none) }
  | none => s

/-- The `thumbnail` assignment of `_set_query_data` (core.py lines
339-344). -/
def query_thumbnail_step (s : State) (page : QueryPage) : State :=
  match page.thumbnail with
  | some th =>
    if th.isEmpty then s
    else
      match alookup th "source" with
      | some src => if src.data.isEmpty then s else { s with thumbnail := some src }
      | none => s
  | none => s

/-- The `pageprops` branch of `_set_query_data` (core.py lines
350-355). -/
def query_pageprops_step (u : Utils) (s : State) (page : QueryPage) : State :=
  match page.pageprops with
  | some pp =>
    if pp.isEmpty then s
    else
      match alookup pp "wikibase_item" with
      | some wb =>
        if wb.data.isEmpty then s
        else { s with wikibase := some wb, wikidata_url := u.wikidata_url (some wb) }
      | none => s
  | none => s

/-- The title assignment of `_set_query_data` (core.py lines 358-359). -/
def query_title_step (s : State) (page : QueryPage) : Except String State :=
  if truthyS s.title then .ok s
  else
    match page.title with
    | none => .error "AttributeError: query title"
    | some t => .ok { s with title := some (replace_spaces t) }

/-- The url assignments of `_set_query_data` (core.py lines 361-364). -/
def query_url_step (s : State) (page : QueryPage) : State :=
  match page.fullurl with
  | some url =>
    if url.data.isEmpty then s
    else { s with url := some url, urlraw := some (url ++ "?action=raw") }
  | none => s

/-- `_set_query_data` (core.py lines 306-364).  An exception discards
the partially built state (the Lean model returns `Except.error`;
observable `.ok` results coincide with Python). -/
def set_query_data (u : Utils) (s : State) : Except String State :=
  match s.g_query with
  | none => .error "TypeError: g_query is None"
  | some cache =>
    match cache.response with
    | none => .ok (markFatal s cache.query)
    | some data =>
      match data.query with
      | none => .error "AttributeError: query"
      | some qdata =>
        match qdata.pages with
        | none => .error "TypeError: pages"
        | some [] => .error "IndexError: pages"
        | some (page :: _) =>
          if page.missing then .error ("LookupError: " ++ cache.query)
          else
            match qdata.random with
            | none => .error "TypeError: random"
            | some [] => .error "IndexError: random"
            | some (r :: _) =>
              match query_title_step
                  { query_pageprops_step u
                      (query_thumbnail_step
                        (query_pageimage_step u (query_extract_step u s page) page)
                        page)
                      page with
                    images := query_images page,
                    pageid := page.pageid,
                    random := some r } page with
              | .error e => .error e
              | .ok s7 => .ok (query_url_step s7 page)

/-- `__get_lead_heading` (core.py lines 152-163).  `hasattr` is always
true for the class attributes `url` and `title`, so there is no early
return; absent values format as `"None"`. -/
def get_lead_heading (s : State) : String :=
  let heading := "<a href=\"" ++ pyStr s.url ++ "\">" ++ pyStr s.title ++ "</a>"
  let heading :=
    if truthyS s.description then
      heading ++ "&mdash;<i>" ++ pyStr s.description ++ "</i>. "
    else heading ++ ":"
  "<span heading>" ++ heading ++ "</span>"

/-- `__get_lead_image` (core.py lines 165-188). -/
def get_lead_image (s : State) : Option String :=
  let alt := if truthyS s.label then pyStr s.label else pyStr s.title
  let srcCls : Option (String × String) :=
    if truthyS s.thumbnail then some (pyStr s.thumbnail, "thumbnail")
    else if truthyS s.pageimage then some (pyStr s.pageimage, "pageimage")
    else if truthyPV s.image then some (pyStrPV s.image, "image")
    else none
  match srcCls with
  | none => none
  | some (src, cls) =>
    some ("<img " ++ cls ++ " src=\"" ++ src ++ "\" alt=\"" ++ alt
      ++ "\" title=\"" ++ alt ++ "\" align=right width=120>")

/-- `__get_lead_metadata` (core.py lines 190-197): the single
`Modified:` line (always a truthy string). -/
def get_lead_metadata (s : State) : String :=
  "<span metadata>" ++ ("Modified: " ++ pyStr s.modified) ++ "</span>"

/-- `__postprocess_lead` (core.py lines 220-229). -/
def postprocess_lead (u : Utils) (query : String) (html : String) : String :=
  let snip := "<span snipped>" ++ u.snip_html html ++ "</span>"
  let base := u.url_scheme query ++ "://" ++ u.url_netloc query
  snip.replace "href=\"/" ("href=\"" ++ base ++ "/")

/-- One item of the first section (core.py lines 205-212): hatnotes and
images are skipped; otherwise the truthy `text`, else the joined keys. -/
def lead_item_par (item : List (String × String)) : Option String :=
  let t := alookup item "type"
  if t = some "hatnote" ∨ t = some "image" then none
  else
    match alookup item "text" with
    | some txt =>
      if txt.data.isEmpty then some (String.intercalate ", " (item.map (fun p => p.1)))
      else some txt
    | none => some (String.intercalate ", " (item.map (fun p => p.1)))

/-- `__get_lead_rest` (core.py lines 199-218): the paragraphs of the
first section; when non-empty, the joined HTML is returned as the
second component (to be stored into `g_rest['html']`). -/
def get_lead_rest (u : Utils) (query : String) (sections : List RestSection) :
    Option String × Option String :=
  match sections with
  | [] => (none, none)
  | sec :: _ =>
    let pars := sec.items.filterMap lead_item_par
    if pars.isEmpty then (none, none)
    else
      let html := String.intercalate "\n" pars
      (some (postprocess_lead u query html), some html)

/-- `__get_lead(data)` (core.py lines 141-150): join the truthy parts.
Returns the lead string and the `g_rest['html']` update. -/
def get_lead (u : Utils) (query : String) (data : RestPayload) (s : State) :
    String × Option String :=
  let restPart :=
    match data.sections with
    | some secs => get_lead_rest u query secs
    | none => (none, none)
  let entries : List (Option String) :=
    [get_lead_image s, some (get_lead_heading s), restPart.1,
     some (get_lead_metadata s)]
  (String.intercalate "\n"
     (entries.filterMap (fun o =>
        match o with
        | some x => if x.data.isEmpty then none else some x
        | none => none)),
   restPart.2)

/-- The `detail` error of a RESTBase response (core.py lines 379-383):
a truthy `detail` object with a truthy `error` member. -/
def rest_detail_error (data : RestPayload) : Option String :=
  match data.detail with
  | some d =>
    if d.isEmpty then none
    else
      match alookup d "error" with
      | some e => if e.data.isEmpty then none else some e
      | none => none
  | none => none

/-- The `description` assignment of `_set_rest_data` (core.py lines
385-388): a truthy new description simply overwrites. -/
def rest_desc_step (s : State) (data : RestPayload) : State :=
  if truthyS data.description then { s with description := data.description } else s

/-- The `image` branch of `_set_rest_data` (core.py lines 390-396). -/
def rest_image_step (u : Utils) (s : State) (data : RestPayload) : State :=
  match data.image with
  | some img =>
    if img.isEmpty then s
    else
      { s with images := dictInsert s.images "rimage" (.obj img),
               pageimage := some (u.media_url
                 (match alookup img "file" with
                  | some f => .str f
                  | none => .null) none) }
  | none => s

/-- The `thumb` branch of `_set_rest_data` (core.py lines 398-404):
a present thumb simply overwrites `self.thumbnail`. -/
def rest_thumb_step (u : Utils) (query : String) (s : State) (data : RestPayload) :
    State :=
  match data.thumb with
  | some th =>
    if th.isEmpty then s
    else
      { s with images := dictInsert s.images "rthumb" (.obj th),
               thumbnail := some (u.url_scheme query ++ ":"
                 ++ pyStr (alookup th "url")) }
  | none => s

/-- The effective title of `_set_rest_data` (core.py lines 406-408):
`redirected` when truthy, else `displaytitle`. -/
def rest_title (data : RestPayload) : Option String :=
  if truthyS data.redirected then data.redirected else data.displaytitle

/-- The canonical url built at core.py line 414. -/
def rest_url (u : Utils) (query : String) (t : String) : String :=
  u.url_scheme query ++ "://" ++ u.url_netloc query ++ "/wiki/" ++ replace_spaces t

/-- `if lead: self.lead = lead` (core.py lines 418-420). -/
def rest_lead_assign (s : State) (leadStr : String) : State :=
  if leadStr.data.isEmpty then s else { s with lead := some leadStr }

/-- The `g_rest['html']` write of `__get_lead_rest` (core.py line 217). -/
def rest_html_assign (cache : GCache RestPayload) (s : State) : Option String → State
  | some h => { s with g_rest := some { cache with html := some h } }
  | none => s

/-- The sections/lead branch of `_set_rest_data` (core.py lines
417-420). -/
def rest_lead_step (u : Utils) (cache : GCache RestPayload) (data : RestPayload)
    (s : State) : State :=
  if truthyD data.sections then
    rest_html_assign cache
      (rest_lead_assign s (get_lead u cache.query data s).1)
      (get_lead u cache.query data s).2
  else s

/-- `_set_rest_data` (core.py lines 366-420).  The missing-title
`AttributeError` (line 409) is checked up front: in Python it would
raise after some attributes were already written, and the model
discards the partial state on every exception, so `.ok` results
coincide. -/
def set_rest_data (u : Utils) (s : State) : Except String State :=
  match s.g_rest with
  | none => .error "TypeError: g_rest is None"
  | some cache =>
    match cache.response with
    | none => .ok (markFatal s cache.query)
    | some data =>
      match rest_detail_error data with
      | some e => .ok { s with stderr_log := s.stderr_log ++ ["RESTBase error: " ++ e] }
      | none =>
        match rest_title data with
        | none => .error "AttributeError: rest title"
        | some t =>
          .ok (rest_lead_step u cache data
            { rest_thumb_step u cache.query
                (rest_image_step u (rest_desc_step s data) data) data with
              title := some (replace_spaces t),
              modified := data.lastmodified,
              pageid := data.id,
              url := some (rest_url u cache.query t),
              urlraw := some (rest_url u cache.query t ++ "?action=raw") })

/-- The image branch of `_set_wikidata` (core.py lines 491-499): a
truthy `wikidata['image']` becomes `image_wikidata` when `self.image`
is already truthy, else `self.image`; a non-list value goes through
`utils.media_url`; the result is recorded under `wimage`. -/
def wd_image_step (u : Utils) (s : State) : State :=
  match alookup s.wikidata "image" with
  | none => s
  | some st =>
    if !storedTruthy st then s
    else
      let image : PyVal :=
        match st with
        | .many vs => .lst vs
        | .one v => .str (u.media_url v none)
      let iv : ImgVal :=
        match image with
        | .str t => ImgVal.str t
        | .lst vs => ImgVal.lst vs
      let s2 :=
        if truthyPV s.image then { s with image_wikidata := some image }
        else { s with image := some image }
      { s2 with images := dictInsert s2.images "wimage" iv }

/-- The sitelinks loop of `__set_title_wikidata` (core.py lines
238-242). -/
def stw_sitelinks (s : State) (item : WdEntity) : State :=
  if !truthyS s.title && truthyD item.sitelinks then
    (item.sitelinks.getD []).foldl
      (fun acc kv =>
        if kv.1 = acc.lang ++ "wiki" then
          { acc with title := some (replace_spaces kv.2) }
        else acc) s
  else s

/-- `__set_title_wikidata(item)` (core.py lines 234-245). -/
def set_title_wikidata (s : State) (item : WdEntity) : State :=
  if !truthyS (stw_sitelinks s item).title && truthyS (stw_sitelinks s item).label then
    { stw_sitelinks s item with
        title := some (replace_spaces (pyStr (stw_sitelinks s item).label)) }
  else stw_sitelinks s item

/-- The `descriptions` assignment of `_set_wikidata` (core.py lines
487-489). -/
def wd_desc_step (s : State) (item : WdEntity) : State :=
  if truthyS (getEntityProp s.lang item.descriptions) then
    { s with description := getEntityProp s.lang item.descriptions }
  else s

/-- The `labels` assignment of `_set_wikidata` (core.py lines 501-503). -/
def wd_label_step (s : State) (item : WdEntity) : State :=
  if truthyS (getEntityProp s.lang item.labels) then
    { s with label := getEntityProp s.lang item.labels }
  else s

/-- `_set_wikidata` (core.py lines 463-507). -/
def set_wikidata (u : Utils) (s : State) : Except String State :=
  match s.g_wikidata with
  | none => .error "TypeError: g_wikidata is None"
  | some cache =>
    match cache.response with
    | none => .ok (markFatal s cache.query)
    | some data =>
      match data.entities with
      | none => .error "TypeError: entities"
      | some [] => .error "StopIteration: entities"
      | some ((_, item) :: _) =>
        if !truthyS item.id && truthyS item.title then
          .error ("LookupError: " ++ cache.query)
        else
          match item.claims with
          | none => .error "TypeError: claims"
          | some qc =>
            match marshal_claims
                { s with wikibase := item.id,
                         wikidata_url := u.wikidata_url item.id } qc with
            | .error e => .error e
            | .ok s2 =>
              .ok { set_title_wikidata
                      (wd_label_step (wd_image_step u (wd_desc_step s2 item)) item)
                      item with
                    modified := item.modified }

/-- The per-entity loop of `get_claims` (core.py lines 563-566). -/
def claimsFold (lang : String) (claimsMap : List (String × String)) :
    State → List (String × WdEntity) → Except String State
  | s, [] => .ok s
  | s, (k, ent) :: rest =>
    match alookup claimsMap k with
    | none => .error "KeyError: claims"
    | some attr =>
      let v : WdValue :=
        match getEntityProp lang ent.labels with
        | some txt => .str txt
        | none => .null
      claimsFold lang claimsMap
        { s with wikidata := update_wikidata s.wikidata attr v } rest

/-- `get_claims` (core.py lines 540-570).  The request is modelled by
the `fetched` record; the decode of the response is not guarded by a
`try`, so an undecodable body is an uncaught `ValueError`. -/
def get_claims (fetched : GCache ClaimsPayload) (showb : Bool) (s : State) :
    Except String (State × Option Unit) :=
  if s.claims.isEmpty then .ok (s, none)
  else if s.g_claims.isSome then
    .ok ({ s with stderr_log := s.stderr_log ++ ["Request cached in g_claims."] }, none)
  else
    let s1 := { s with g_claims := some fetched }
    match fetched.response with
    | none => .error "ValueError: json_loads"
    | some data =>
      match data.entities with
      | none => .error "TypeError: entities"
      | some ents =>
        match claimsFold s1.lang s1.claims s1 ents with
        | .error e => .error e
        | .ok s2 => .ok (show_apply showb s2, some ())

/-- `get_parse` (core.py lines 572-602).  Query building and `curl` are
modelled by the given `fetched` record; the second component of the
result is the Python return value (`some ()` for `self`, `none` for
the bare `return` of the cached branch). -/
def get_parse (u : Utils) (fetched : GCache ParsePayload) (showb : Bool) (s : State) :
    Except String (State × Option Unit) :=
  if s.g_parse.isSome then
    .ok ({ s with stderr_log := s.stderr_log ++ ["Request cached in g_parse."] }, none)
  else if !truthyS s.title && !truthyN s.pageid then
    .error "LookupError: get_parse needs title or pageid"
  else
    match set_parse_data u { s with g_parse := some fetched } with
    | .error e => .error e
    | .ok s2 => .ok (show_apply showb s2, some ())

/-- `get_query` (core.py lines 604-635). -/
def get_query (u : Utils) (fetched : GCache QueryPayload) (showb : Bool) (s : State) :
    Except String (State × Option Unit) :=
  if s.g_query.isSome then
    .ok ({ s with stderr_log := s.stderr_log ++ ["Request cached in g_query."] }, none)
  else if !truthyS s.title && !truthyN s.pageid then
    .error "LookupError: get_query needs title or pageid"
  else
    match set_query_data u { s with g_query := some fetched } with
    | .error e => .error e
    | .ok s2 => .ok (show_apply showb s2, some ())

/-- `get_rest` (core.py lines 663-694). -/
def get_rest (u : Utils) (fetched : GCache RestPayload) (showb : Bool) (s : State) :
    Except String (State × Option Unit) :=
  if s.g_rest.isSome then
    .ok ({ s with stderr_log := s.stderr_log ++ ["Request cached in g_rest."] }, none)
  else if !truthyS s.title then
    .error "LookupError: get_rest needs a title"
  else
    match set_rest_data u { s with g_rest := some fetched } with
    | .error e => .error e
    | .ok s2 => .ok (show_apply showb s2, some ())

/-- The claims/show epilogue of `get_wikidata` (core.py lines 733-737). -/
def gw_claims_phase (fc : GCache ClaimsPayload) (showb getClaimsFlag : Bool)
    (s2 : State) : Except String (State × Option Unit) :=
  if !s2.claims.isEmpty && getClaimsFlag then
    match get_claims fc false s2 with
    | .error e => .error e
    | .ok (s3, _) => .ok (show_apply showb s3, some ())
  else .ok (show_apply showb s2, some ())

/-- The non-cached main path of `get_wikidata` after the `thing`
selection (core.py lines 726-737). -/
def get_wikidata_main (u : Utils) (fw : GCache WdPayload) (fc : GCache ClaimsPayload)
    (showb getClaimsFlag : Bool) (s : State) :
    Except String (State × Option Unit) :=
  match set_wikidata u { s with g_wikidata := some fw } with
  | .error e => .error e
  | .ok s2 => gw_claims_phase fc showb getClaimsFlag s2

/-- `get_wikidata` (core.py lines 696-737). -/
def get_wikidata (u : Utils) (fw : GCache WdPayload) (fc : GCache ClaimsPayload)
    (showb getClaimsFlag : Bool) (s : State) :
    Except String (State × Option Unit) :=
  if s.g_wikidata.isSome then
    .ok ({ s with stderr_log := s.stderr_log ++ ["Request cached in g_wikidata."] },
         none)
  else if truthyS s.wikibase then
    get_wikidata_main u fw fc showb getClaimsFlag s
  else if !s.lang.data.isEmpty && truthyS s.title then
    get_wikidata_main u fw fc showb getClaimsFlag s
  else
    .ok ({ s with stderr_log := s.stderr_log
            ++ ["get_wikidata: need wikibase or lang and title"] }, none)

/-- `get_random` (core.py lines 637-661); only a JSON-decode failure is
caught (`ValueError`), every other missing level raises. -/
def get_random (fetched : GCache RandomPayload) (showb : Bool) (s : State) :
    Except String (State × Option Unit) :=
  match fetched.response with
  | none => .ok (markFatal s fetched.query, none)
  | some data =>
    match data.query with
    | none => .error "AttributeError: random query"
    | some q =>
      match q.random with
      | none => .error "TypeError: random"
      | some [] => .error "IndexError: random"
      | some (rd :: _) =>
        let s1 := { s with pageid := rd.id }
        let step : Except String State :=
          if truthyS s1.title then .ok s1
          else
            match rd.title with
            | none => .error "AttributeError: random title"
            | some t => .ok { s1 with title := some (replace_spaces t) }
        match step with
        | .error e => .error e
        | .ok s2 => .ok (show_apply showb s2, some ())

/-- The operations of a `WPTools` object that can run in a session, for
stating state invariants.  Each request operation carries the abstract
`Utils` and the fetched response it would receive. -/
inductive Op
  | opInit (args0 : Option String) (lang : Option String) (pageid : Option Nat)
      (wikibase : Option String)
  | opSetParse (u : Utils)
  | opSetQuery (u : Utils)
  | opSetRest (u : Utils)
  | opSetWikidata (u : Utils)
  | opSetTitleWikidata (item : WdEntity)
  | opGetParse (u : Utils) (fetched : GCache ParsePayload) (showb : Bool)
  | opGetQuery (u : Utils) (fetched : GCache QueryPayload) (showb : Bool)
  | opGetRest (u : Utils) (fetched : GCache RestPayload) (showb : Bool)
  | opGetWikidata (u : Utils) (fw : GCache WdPayload) (fc : GCache ClaimsPayload)
      (showb getClaimsFlag : Bool)
  | opGetClaims (fetched : GCache ClaimsPayload) (showb : Bool)
  | opGetRandom (fetched : GCache RandomPayload) (showb : Bool)

/-- Result state of an `Except`-valued step; on an uncaught Python
exception the (Lean-side) state is left as it was. -/
def exceptD (s : State) : Except String State → State
  | .ok s2 => s2
  | .error _ => s

/-- Result state of a request method. -/
def exceptD2 (s : State) : Except String (State × Option Unit) → State
  | .ok (s2, _) => s2
  | .error _ => s

/-- Apply one operation to the state. -/
def Op.apply (s : State) : Op → State
  | .opInit a l p w => init_state a l p w
  | .opSetParse u => exceptD s (set_parse_data u s)
  | .opSetQuery u => exceptD s (set_query_data u s)
  | .opSetRest u => exceptD s (set_rest_data u s)
  | .opSetWikidata u => exceptD s (set_wikidata u s)
  | .opSetTitleWikidata item => set_title_wikidata s item
  | .opGetParse u f b => exceptD2 s (get_parse u f b s)
  | .opGetQuery u f b => exceptD2 s (get_query u f b s)
  | .opGetRest u f b => exceptD2 s (get_rest u f b s)
  | .opGetWikidata u fw fc b g => exceptD2 s (get_wikidata u fw fc b g s)
  | .opGetClaims f b => exceptD2 s (get_claims f b s)
  | .opGetRandom f b => exceptD2 s (get_random f b s)

/-- The no-space invariant of C8. -/
def titleNoSpace (s : State) : Prop :=
  ∀ t : String, s.title = some t → ' ' ∉ t.data

/-- Relation between a state and its successor used to prove C8: the
title is either untouched or freshly obtained through
`replace_spaces`. -/
def titlePreserved (s s2 : State) : Prop :=
  s2.title = s.title ∨ ∃ raw : String, s2.title = some (replace_spaces raw)

/-- A derived form of the image value computed by the wikidata image
branch (core.py lines 492-494): a list stays as it is, anything else
goes through `utils.media_url`. -/
def wdImagePv (u : Utils) (st : WdStored) : PyVal :=
  match st with
  | .many vs => .lst vs
  | .one v => .str (u.media_url v none)

/-- Coercion of an image value into the `images` dict value. -/
def pvToImg : PyVal → ImgVal
  | .str s => .str s
  | .lst vs => .lst vs

/-- A concrete instantiation of the abstract helper functions, used by
the witnesses. -/
def uTest : Utils :=
  { media_url := fun v ns =>
      (match v with
       | .str s => "m:" ++ s
       | .obj _ => "m:obj"
       | .null => "m:none")
      ++ (match ns with | some n => ":" ++ n | none => "")
    wikidata_url := fun o => o.map (fun w => "wd:" ++ w)
    get_infobox := fun _ => none
    get_links := fun _ => none
    html2text := fun s => s
    snip_html := fun s => s
    url_scheme := fun _ => "https"
    url_netloc := fun _ => "host" }

/-- A state whose four response caches all hold undecodable bodies
(used by the C6 witness). -/
def sFatalTest : State :=
  { g_parse := some { query := "qp", response := none }
    g_query := some { query := "qq", response := none }
    g_rest := some { query := "qr", response := none }
    g_wikidata := some { query := "qw", response := none } }

/-- A state with a non-empty `image`, used by the C4 witness. -/
def sPimTest : State := { image := some (.str "I") }

/-- A concrete infobox dict with a bracketed image, for the C4 witness. -/
def dicTest : List (String × String) := [("image", "[[F.jpg]]")]

/-- Result of `set_pimage` on the C4 witness inputs. -/
def sPimRes : State := (set_pimage uTest sPimTest dicTest "image").getD sPimTest

/-- A concrete Wikidata entity for the C4 witness. -/
def wdItemTest : WdEntity :=
  { id := some "Q1", title := some "T", claims := some [], descriptions := none,
    labels := none, sitelinks := none, modified := some "2020-01-01" }

/-- A state with a non-empty `image` and a pending Wikidata image,
whose `g_wikidata` cache decodes to `wdItemTest`. -/
def sWdTest : State :=
  { image := some (.str "I")
    wikidata := [("image", .one (.str "W.jpg"))]
    g_wikidata := some { query := "qw2",
                         response := some { entities := some [("Q1", wdItemTest)] } } }

/-- Result of `_set_wikidata` on the C4 witness inputs. -/
def sWdRes : State := exceptD sWdTest (set_wikidata uTest sWdTest)

/-- A RESTBase payload carrying a new description, thumb, title and
modification date (used for C5). -/
def restDataC5 : RestPayload :=
  { detail := none, description := some "new", image := none,
    thumb := some [("url", "/th.jpg")], displaytitle := some "New Title",
    redirected := none, lastmodified := some "2020-02-02", id := none,
    sections := none }

/-- The pending RESTBase cache record of the C5 inputs. -/
def gRestC5 : GCache RestPayload :=
  { query := "https://host/x", response := some restDataC5 }

/-- A state whose description, thumbnail, title and modified date were
already reconciled from earlier responses, with a pending RESTBase
response (used for C5). -/
def sC5 : State :=
  { description := some "old", thumbnail := some "oldthumb",
    title := some "Old_Title", modified := some "2019-01-01",
    g_rest := some gRestC5 }

/-- Result of `_set_rest_data` on the C5 inputs. -/
def sC5Res : State := exceptD sC5 (set_rest_data uTest sC5)

end WPTools



namespace WpSummary

theorem markOf_ne_keep_of_pos {t : Bool} {b : Int} {l : String}
    (h : 0 < b + deltaLine l) : markOf t b l ≠ Mark.keep := by
  simp only [markOf]
  split_ifs <;> simp_all

theorem markOf_ne_keep_of_fenced {t : Bool} {b : Int} {l : String}
    (h : fenced l = true) : markOf t b l ≠ Mark.keep := by
  simp only [markOf]
  split_ifs <;> simp_all

theorem markOf_exit {t : Bool} {b : Int} {l : String}
    (ht : t = true) (hb : b + deltaLine l = 0) : markOf t b l = Mark.exitZero := by
  simp [markOf, hb, ht]

theorem nextTemple_pos {t : Bool} {b : Int} {l : String}
    (h : 0 < b + deltaLine l) : nextTemple t b l = true := by
  have hne : ¬ (b + deltaLine l = 0) := by omega
  simp [nextTemple, h, hne]

theorem summaryLoop_marks (ls : List String) : ∀ st : SState,
    (summaryLoop st ls).output
      = st.output
        ++ ((marks st.temple st.braces ls).filter (fun p => p.1 = Mark.keep)).map
             (fun p => lstrip p.2) := by
  induction ls with
  | nil => intro st; simp [summaryLoop, marks]
  | cons l rest ih =>
    intro st
    by_cases h : pyStartsWith l "="
    · simp [summaryLoop, marks, h]
    · rw [show summaryLoop st (l :: rest) = summaryLoop (stepLine st l) rest by
        simp [summaryLoop, h]]
      rw [ih (stepLine st l)]
      by_cases hm : markOf st.temple st.braces l = Mark.keep
      · simp [marks, h, hm, stepLine]
      · simp [marks, h, hm, stepLine]

theorem summaryLoop_mem (ls : List String) : ∀ (st : SState) (l : String),
    l ∈ (summaryLoop st ls).output →
    l ∈ st.output ∨ l ∈ (ls.take (headIdx ls)).map lstrip := by
  induction ls with
  | nil => intro st l hmem; simp [summaryLoop] at hmem; exact Or.inl hmem
  | cons a rest ih =>
    intro st l hmem
    by_cases h : pyStartsWith a "="
    · simp [summaryLoop, h] at hmem
      exact Or.inl hmem
    · rw [show summaryLoop st (a :: rest) = summaryLoop (stepLine st a) rest by
        simp [summaryLoop, h]] at hmem
      have hhead : headIdx (a :: rest) = headIdx rest + 1 := by
        simp [headIdx, List.findIdx_cons, h]
      rcases ih (stepLine st a) l hmem with h1 | h2
      · by_cases hm : markOf st.temple st.braces a = Mark.keep
        · simp [stepLine, hm] at h1
          rcases h1 with h1 | h1
          · exact Or.inl h1
          · subst h1
            refine Or.inr ?_
            rw [hhead, List.take_succ_cons, List.map_cons]
            exact List.mem_cons_self _ _
        · simp [stepLine, hm] at h1
          exact Or.inl h1
      · refine Or.inr ?_
        rw [hhead, List.take_succ_cons, List.map_cons]
        exact List.mem_cons_of_mem _ h2

theorem marks_get_not_keep (ls : List String) : ∀ (t : Bool) (b : Int),
    (0 < b → t = true) →
    ∀ (i : Nat) (m : Mark) (l' : String),
      (marks t b ls)[i]? = some (m, l') →
      (0 < depthAt b ls i → m ≠ Mark.keep)
      ∧ (0 < depthBefore b ls i → depthAt b ls i = 0 → m ≠ Mark.keep) := by
  induction ls with
  | nil => intro t b _ i m l' hget; simp [marks] at hget
  | cons l rest ih =>
    intro t b hinv i m l' hget
    by_cases hs : pyStartsWith l "="
    · simp [marks, hs] at hget
    · rw [show marks t b (l :: rest)
          = (markOf t b l, l) :: marks (nextTemple t b l) (b + deltaLine l) rest by
        simp [marks, hs]] at hget
      cases i with
      | zero =>
        rw [List.getElem?_cons_zero] at hget
        simp only [Option.some.injEq, Prod.mk.injEq] at hget
        obtain ⟨hm, _⟩ := hget
        subst hm
        constructor
        · intro hd
          have hd' : 0 < b + deltaLine l := by
            simpa [depthAt, depthBefore] using hd
          exact markOf_ne_keep_of_pos hd'
        · intro hb0 hafter
          have hb0' : 0 < b := by simpa [depthBefore] using hb0
          have hafter' : b + deltaLine l = 0 := by
            simpa [depthAt, depthBefore] using hafter
          rw [markOf_exit (hinv hb0') hafter']
          simp
      | succ j =>
        rw [List.getElem?_cons_succ] at hget
        have hres := ih (nextTemple t b l) (b + deltaLine l)
          (fun hp => nextTemple_pos hp) j m l' hget
        constructor
        · intro hd
          exact hres.1 (by simpa [depthAt, depthBefore] using hd)
        · intro hb0 hafter
          exact hres.2 (by simpa [depthBefore] using hb0)
            (by simpa [depthAt, depthBefore] using hafter)

theorem foldl_foldStep_stopped (ls : List String) : ∀ st : SState,
    List.foldl foldStep ⟨true, st⟩ ls = ⟨true, st⟩ := by
  induction ls with
  | nil => intro st; rfl
  | cons l rest ih => intro st; simpa [foldStep] using ih st

theorem summaryLoop_eq_foldl (ls : List String) : ∀ st : SState,
    summaryLoop st ls = (List.foldl foldStep ⟨false, st⟩ ls).st := by
  induction ls with
  | nil => intro st; rfl
  | cons l rest ih =>
    intro st
    by_cases h : pyStartsWith l "="
    · simp [summaryLoop, h, foldStep, foldl_foldStep_stopped]
    · simp [summaryLoop, h, foldStep, ih (stepLine st l)]

end WpSummary

namespace WpSummary

/-- C1: every line of the string returned by `_summary` originates from
a line of the input that occurs strictly before the first input line
starting with `"="`: each element of the joined output list is the
`lstrip` of one of the input lines taken before `headIdx`, the index of
the first heading line.  (`summary w` is `String.intercalate "\n"`
applied to `summaryLines w`, so the output lines are exactly the
elements of `summaryLines w`.) -/
theorem c1_output_before_first_heading (w l : String)
    (hmem : l ∈ summaryLines w) :
    l ∈ ((pyLines w).take (headIdx (pyLines w))).map lstrip := by
  rcases summaryLoop_mem (pyLines w) initS l hmem with h | h
  · simp [initS] at h
  · exact h

/-- Witness for C1 at a concrete input. -/
theorem c1_output_before_first_heading_witness :
    "hello" ∈ summaryLines "hello\n=H\nafter"
    ∧ "hello" ∈ ((pyLines "hello\n=H\nafter").take
        (headIdx (pyLines "hello\n=H\nafter"))).map lstrip :=
  ⟨by decide, c1_output_before_first_heading "hello\n=H\nafter" "hello" (by decide)⟩

/-- C2: `_summary` keeps a running template-brace depth across lines
(`depthBefore`/`depthAt`, built from the per-line count of `'{{'` minus
the count of `'}}'`); the output contains exactly the (lstripped) lines
whose mark is `">"`, and any processed line on which the resulting
depth is positive, or on which the depth returns to zero from a
positive value, receives a mark other than `">"`, hence is excluded
from the output. -/
theorem c2_brace_depth_exclusion (w : String) :
    (summaryLines w
      = ((marks false 0 (pyLines w)).filter (fun p => p.1 = Mark.keep)).map
          (fun p => lstrip p.2))
    ∧ (∀ (i : Nat) (m : Mark) (l : String),
        (marks false 0 (pyLines w))[i]? = some (m, l) →
        (0 < depthAt 0 (pyLines w) i → m ≠ Mark.keep)
        ∧ (0 < depthBefore 0 (pyLines w) i → depthAt 0 (pyLines w) i = 0 →
            m ≠ Mark.keep)) := by
  constructor
  · have := summaryLoop_marks (pyLines w) initS
    simpa [summaryLines, initS] using this
  · intro i m l hget
    exact marks_get_not_keep (pyLines w) false 0 (by simp) i m l hget

/-- Witness for C2 at a concrete input: the first line of
`"\x7b\x7ba\nb\n\x7d\x7dc\nd"` leaves depth 1 (mark `1`), and its third line
returns the depth to zero (mark `0`); both are excluded. -/
theorem c2_brace_depth_exclusion_witness :
    (marks false 0 (pyLines "\x7b\x7ba\nb\n\x7d\x7dc\nd"))[0]? = some (Mark.num 1, "\x7b\x7ba")
    ∧ Mark.num 1 ≠ Mark.keep
    ∧ (marks false 0 (pyLines "\x7b\x7ba\nb\n\x7d\x7dc\nd"))[2]? = some (Mark.exitZero, "\x7d\x7dc")
    ∧ Mark.exitZero ≠ Mark.keep := by
  refine ⟨by decide, ?_, by decide, ?_⟩
  · exact ((c2_brace_depth_exclusion "\x7b\x7ba\nb\n\x7d\x7dc\nd").2 0 (Mark.num 1) "\x7b\x7ba"
      (by decide)).1 (by decide)
  · exact ((c2_brace_depth_exclusion "\x7b\x7ba\nb\n\x7d\x7dc\nd").2 2 Mark.exitZero "\x7d\x7dc"
      (by decide)).2 (by decide) (by decide)

/-- C3: any single line entirely matching one of the fenced shapes
(`^{{.*}}$`, `^\[\[.*\]\]$`, `^<!--.*-->$`, modelled by `fenced`) is
never marked `">"`, for every temple flag and every running depth —
including depth zero — and the output contains only `">"`-marked lines,
so such a line is always excluded from `_summary`'s output. -/
theorem c3_fenced_lines_excluded (w : String) :
    (summaryLines w
      = ((marks false 0 (pyLines w)).filter (fun p => p.1 = Mark.keep)).map
          (fun p => lstrip p.2))
    ∧ (∀ (t : Bool) (b : Int) (l : String),
        fenced l = true → markOf t b l ≠ Mark.keep) := by
  constructor
  · have := summaryLoop_marks (pyLines w) initS
    simpa [summaryLines, initS] using this
  · intro t b l hf
    exact markOf_ne_keep_of_fenced hf

/-- Witness for C3 at a concrete input: the template-fenced line
`"\x7b\x7bx\x7d\x7d"` is not kept, at depth zero. -/
theorem c3_fenced_lines_excluded_witness :
    fenced "\x7b\x7bx\x7d\x7d" = true ∧ markOf false 0 "\x7b\x7bx\x7d\x7d" ≠ Mark.keep :=
  ⟨by decide, (c3_fenced_lines_excluded "").2 false 0 "\x7b\x7bx\x7d\x7d" (by decide)⟩

/-- C7: `_summary` is a single left-to-right pass: it equals one
`List.foldl` of `foldStep` over the list of lines of the wikitext
(visiting each line at most once and in order; the `stopped` flag
models the heading `break`), and as a total Lean function it terminates
on every input string. -/
theorem c7_single_pass_fold (w : String) :
    summary w
      = String.intercalate "\n"
          ((List.foldl foldStep ⟨false, initS⟩ (pyLines w)).st.output) := by
  unfold summary summaryLines
  rw [summaryLoop_eq_foldl (pyLines w) initS]

/-- C10: `_parse` omits every page whose extracted summary is empty:
whenever `wpParse` succeeds, every record of the returned list has a
non-empty `wikitext`, and it originates from a page of the input whose
first revision's summary is exactly that non-empty text. -/
theorem c10_parse_omits_empty_summaries (pages : List ApiPage)
    (rs : List InfoSummary) (hok : wpParse pages = some rs) :
    ∀ r ∈ rs, r.wikitext ≠ ""
      ∧ ∃ p ∈ pages, ∃ w ws, p.revisions = w :: ws
          ∧ r.title = p.title ∧ r.wikitext = summary w := by
  induction pages generalizing rs with
  | nil =>
    simp [wpParse] at hok
    subst hok
    intro r hr
    simp at hr
  | cons p rest ih =>
    intro r hr
    match hrev : p.revisions with
    | [] => rw [wpParse, hrev] at hok; exact absurd hok (by simp)
    | w :: ws =>
      rw [wpParse, hrev] at hok
      match hrec : wpParse rest with
      | none => rw [hrec] at hok; exact absurd hok (by simp)
      | some rs' =>
        rw [hrec] at hok
        simp only [Option.some.injEq] at hok
        by_cases hemp : summary w = ""
        · rw [if_pos hemp] at hok
          subst hok
          obtain ⟨h1, p', hp', hrest⟩ := ih rs' hrec r hr
          exact ⟨h1, p', List.mem_cons_of_mem _ hp', hrest⟩
        · rw [if_neg hemp] at hok
          subst hok
          rcases List.mem_cons.mp hr with hr1 | hr1
          · subst hr1
            exact ⟨hemp, p, List.mem_cons_self _ _, w, ws, hrev, rfl, rfl⟩
          · obtain ⟨h1, p', hp', hrest⟩ := ih rs' hrec r hr1
            exact ⟨h1, p', List.mem_cons_of_mem _ hp', hrest⟩

/-- Witness for C10 at a concrete input: a two-page list where the
second page's summary is empty (its wikitext starts with a heading)
yields a single record, coming from the first page. -/
theorem c10_parse_omits_empty_summaries_witness :
    wpParse [⟨"A", ["hello"]⟩, ⟨"B", ["=h\nx"]⟩] = some [⟨"A", "hello"⟩]
    ∧ ((⟨"A", "hello"⟩ : InfoSummary).wikitext ≠ ""
       ∧ ∃ p ∈ [(⟨"A", ["hello"]⟩ : ApiPage), ⟨"B", ["=h\nx"]⟩],
           ∃ w ws, p.revisions = w :: ws
             ∧ (⟨"A", "hello"⟩ : InfoSummary).title = p.title
             ∧ (⟨"A", "hello"⟩ : InfoSummary).wikitext = summary w) :=
  ⟨by decide,
   c10_parse_omits_empty_summaries [⟨"A", ["hello"]⟩, ⟨"B", ["=h\nx"]⟩]
     [⟨"A", "hello"⟩] (by decide) ⟨"A", "hello"⟩ (by decide)⟩

end WpSummary

namespace WPTools

theorem wd_image_step_eq (u : Utils) (s : State) (st : WdStored)
    (hl : alookup s.wikidata "image" = some st) (ht : storedTruthy st = true) :
    wd_image_step u s
      = (if truthyPV s.image then
           { s with image_wikidata := some (wdImagePv u st),
                    images := dictInsert s.images "wimage" (pvToImg (wdImagePv u st)) }
         else
           { s with image := some (wdImagePv u st),
                    images := dictInsert s.images "wimage" (pvToImg (wdImagePv u st)) }) := by
  by_cases himg : truthyPV s.image = true <;>
    simp [wd_image_step, hl, ht, himg, wdImagePv, pvToImg]

theorem c6_decode_failure_sets_fatal (u : Utils) (s : State) :
    (∀ cache : GCache ParsePayload, s.g_parse = some cache → cache.response = none →
        set_parse_data u s = .ok (markFatal s cache.query))
    ∧ (∀ cache : GCache QueryPayload, s.g_query = some cache → cache.response = none →
        set_query_data u s = .ok (markFatal s cache.query))
    ∧ (∀ cache : GCache RestPayload, s.g_rest = some cache → cache.response = none →
        set_rest_data u s = .ok (markFatal s cache.query))
    ∧ (∀ cache : GCache WdPayload, s.g_wikidata = some cache → cache.response = none →
        set_wikidata u s = .ok (markFatal s cache.query)) := by
  refine ⟨?_, ?_, ?_, ?_⟩ <;> intro cache hc hr
  · simp [set_parse_data, hc, hr]
  · simp [set_query_data, hc, hr]
  · simp [set_rest_data, hc, hr]
  · simp [set_wikidata, hc, hr]

theorem c6_decode_failure_sets_fatal_witness :
    set_parse_data uTest sFatalTest = .ok (markFatal sFatalTest "qp")
    ∧ set_query_data uTest sFatalTest = .ok (markFatal sFatalTest "qq")
    ∧ set_rest_data uTest sFatalTest = .ok (markFatal sFatalTest "qr")
    ∧ set_wikidata uTest sFatalTest = .ok (markFatal sFatalTest "qw") :=
  ⟨(c6_decode_failure_sets_fatal uTest sFatalTest).1
      { query := "qp", response := none } rfl rfl,
   (c6_decode_failure_sets_fatal uTest sFatalTest).2.1
      { query := "qq", response := none } rfl rfl,
   (c6_decode_failure_sets_fatal uTest sFatalTest).2.2.1
      { query := "qr", response := none } rfl rfl,
   (c6_decode_failure_sets_fatal uTest sFatalTest).2.2.2
      { query := "qw", response := none } rfl rfl⟩

theorem c9_cached_requests_are_noops (u : Utils) (fp : GCache ParsePayload)
    (fq : GCache QueryPayload) (fr : GCache RestPayload) (fw : GCache WdPayload)
    (fc : GCache ClaimsPayload) (showb gcf : Bool) (s : State) :
    (s.g_parse.isSome = true →
      get_parse u fp showb s
        = .ok ({ s with stderr_log := s.stderr_log ++ ["Request cached in g_parse."] },
               none))
    ∧ (s.g_query.isSome = true →
      get_query u fq showb s
        = .ok ({ s with stderr_log := s.stderr_log ++ ["Request cached in g_query."] },
               none))
    ∧ (s.g_rest.isSome = true →
      get_rest u fr showb s
        = .ok ({ s with stderr_log := s.stderr_log ++ ["Request cached in g_rest."] },
               none))
    ∧ (s.g_wikidata.isSome = true →
      get_wikidata u fw fc showb gcf s
        = .ok ({ s with stderr_log := s.stderr_log
                  ++ ["Request cached in g_wikidata."] }, none)) := by
  refine ⟨?_, ?_, ?_, ?_⟩ <;> intro h
  · simp [get_parse, h]
  · simp [get_query, h]
  · simp [get_rest, h]
  · simp [get_wikidata, h]

theorem c9_cached_requests_are_noops_witness :
    get_parse uTest { query := "q", response := none } true sFatalTest
      = .ok ({ sFatalTest with
                stderr_log := sFatalTest.stderr_log ++ ["Request cached in g_parse."] },
             none)
    ∧ get_wikidata uTest { query := "q", response := none }
        { query := "q", response := none } true true sFatalTest
      = .ok ({ sFatalTest with
                stderr_log := sFatalTest.stderr_log
                  ++ ["Request cached in g_wikidata."] }, none) :=
  ⟨(c9_cached_requests_are_noops uTest { query := "q", response := none }
      { query := "q", response := none } { query := "q", response := none }
      { query := "q", response := none } { query := "q", response := none }
      true true sFatalTest).1 rfl,
   (c9_cached_requests_are_noops uTest { query := "q", response := none }
      { query := "q", response := none } { query := "q", response := none }
      { query := "q", response := none } { query := "q", response := none }
      true true sFatalTest).2.2.2 rfl⟩

end WPTools

namespace WPTools

theorem marshalVals_image (label : String) (vs : List WdValue) : ∀ s : State,
    (marshalVals s label vs).image = s.image := by
  induction vs with
  | nil => intro s; rfl
  | cons v rest ih =>
    intro s
    cases v with
    | str q =>
      by_cases hq : isQid (.str q) = true <;> simp [marshalVals, hq, ih]
    | obj e => simp [marshalVals, ih]
    | null => simp [marshalVals, ih]

theorem marshalProps_image (props : List (String × List WdValue)) : ∀ s : State,
    (marshalProps s props).image = s.image := by
  induction props with
  | nil => intro s; rfl
  | cons p rest ih =>
    intro s
    simp [marshalProps, ih, marshalVals_image]

theorem marshal_claims_image (s s2 : State) (qc : List (String × List (Option WdValue)))
    (hok : marshal_claims s qc = .ok s2) : s2.image = s.image := by
  unfold marshal_claims at hok
  split at hok
  · exact absurd hok (by simp)
  · injection hok with h
    subst h
    simp [marshalProps_image]

theorem sitelinks_fold_image (links : List (String × String)) : ∀ acc : State,
    (links.foldl
      (fun acc kv =>
        if kv.1 = acc.lang ++ "wiki" then
          { acc with title := some (replace_spaces kv.2) }
        else acc) acc).image = acc.image := by
  induction links with
  | nil => intro acc; rfl
  | cons kv rest ih =>
    intro acc
    by_cases h : kv.1 = acc.lang ++ "wiki" <;> simp [h, ih]

theorem stw_label_branch_image (s1 : State) :
    (if (!truthyS s1.title && truthyS s1.label) = true then
        { s1 with title := some (replace_spaces (pyStr s1.label)) }
      else s1).image = s1.image := by
  split <;> rfl

theorem stw_sitelinks_image (s : State) (item : WdEntity) :
    (stw_sitelinks s item).image = s.image := by
  unfold stw_sitelinks
  split
  · exact sitelinks_fold_image _ _
  · rfl

theorem set_title_wikidata_image (s : State) (item : WdEntity) :
    (set_title_wikidata s item).image = s.image := by
  unfold set_title_wikidata
  rw [stw_label_branch_image]
  exact stw_sitelinks_image s item

theorem wd_image_step_image (u : Utils) (s : State)
    (himg : truthyPV s.image = true) : (wd_image_step u s).image = s.image := by
  unfold wd_image_step
  split
  · rfl
  · split
    · rfl
    · simp [himg]

theorem set_pimage_image_of_truthy (u : Utils) (s s2 : State)
    (dic : List (String × String)) (key : String)
    (himg : truthyPV s.image = true) (hok : set_pimage u s dic key = some s2) :
    s2.image = s.image := by
  unfold set_pimage at hok
  split at hok
  · exact absurd hok (by simp)
  · simp only [himg, if_true, Option.some.injEq] at hok
    subst hok
    simp

theorem parse_infobox_step_image (u : Utils) (s s2 : State) (pdata : ParseData)
    (himg : truthyPV s.image = true)
    (hok : parse_infobox_step u s pdata = some s2) : s2.image = s.image := by
  unfold parse_infobox_step at hok
  split at hok
  · injection hok with h; subst h; rfl
  · rename_i ib heqib
    split at hok
    · injection hok with h; subst h; rfl
    · split at hok
      · exact set_pimage_image_of_truthy u { s with infobox := some ib } s2 ib "image"
          himg hok
      · split at hok
        · exact set_pimage_image_of_truthy u { s with infobox := some ib } s2 ib "Cover"
            himg hok
        · injection hok with h; subst h; rfl

theorem parse_title_step_image (s s2 : State) (pdata : ParseData)
    (hok : parse_title_step s pdata = .ok s2) : s2.image = s.image := by
  unfold parse_title_step at hok
  split at hok
  · injection hok with h; subst h; rfl
  · split at hok
    · exact absurd hok (by simp)
    · injection hok with h; subst h; rfl

theorem parse_tail_step_image (u : Utils) (s s2 : State) (pdata : ParseData)
    (hok : parse_tail_step u s pdata = .ok s2) : s2.image = s.image := by
  unfold parse_tail_step at hok
  split at hok
  · exact absurd hok (by simp)
  · injection hok with h; subst h; rfl

theorem set_parse_preserves_image (u : Utils) (s sP : State)
    (himg : truthyPV s.image = true) (hok : set_parse_data u s = .ok sP) :
    sP.image = s.image := by
  unfold set_parse_data at hok
  rcases hg : s.g_parse with _ | cache
  · simp [hg] at hok
  · simp only [hg] at hok
    rcases hr : cache.response with _ | data
    · simp only [hr] at hok
      injection hok with h
      subst h
      rfl
    · simp only [hr] at hok
      rcases hp : data.parse with _ | pdata
      · simp [hp] at hok
      · simp only [hp] at hok
        rcases hi : parse_infobox_step u s pdata with _ | s2
        · simp [hi] at hok
        · simp only [hi] at hok
          rcases ht : parse_title_step
              { s2 with links := u.get_links pdata.iwlinks,
                        pageid := pdata.pageid,
                        parsetree := pdata.parsetree } pdata with e | s4
          · simp [ht] at hok
          · simp only [ht] at hok
            have h2 : s2.image = s.image := parse_infobox_step_image u s s2 pdata himg hi
            have h4 : s4.image = s2.image := by
              have := parse_title_step_image _ s4 pdata ht
              simpa using this
            have h5 : sP.image = s4.image := parse_tail_step_image u s4 sP pdata hok
            rw [h5, h4, h2]

theorem set_wikidata_preserves_image (u : Utils) (s sW : State)
    (himg : truthyPV s.image = true) (hok : set_wikidata u s = .ok sW) :
    sW.image = s.image := by
  unfold set_wikidata at hok
  rcases hg : s.g_wikidata with _ | cache
  · simp [hg] at hok
  · simp only [hg] at hok
    rcases hr : cache.response with _ | data
    · simp only [hr] at hok
      injection hok with h
      subst h
      rfl
    · simp only [hr] at hok
      rcases he : data.entities with _ | (_ | ⟨⟨k, item⟩, rest⟩)
      · simp [he] at hok
      · simp [he] at hok
      · simp only [he] at hok
        split at hok
        · exact absurd hok (by simp)
        · rcases hc : item.claims with _ | qc
          · simp [hc] at hok
          · simp only [hc] at hok
            split at hok
            · exact absurd hok (by simp)
            · rename_i s2 hm
              injection hok with h
              subst h
              have h2 : s2.image = s.image := by
                have := marshal_claims_image _ s2 qc hm
                simpa using this
              have h3 : (wd_desc_step s2 item).image = s2.image := by
                unfold wd_desc_step; split <;> rfl
              have h4 : (wd_image_step u (wd_desc_step s2 item)).image
                  = (wd_desc_step s2 item).image := by
                refine wd_image_step_image u _ ?_
                rw [h3, h2]; exact himg
              have h5 : (wd_label_step (wd_image_step u (wd_desc_step s2 item)) item).image
                  = (wd_image_step u (wd_desc_step s2 item)).image := by
                unfold wd_label_step; split <;> rfl
              show (set_title_wikidata _ item).image = s.image
              rw [set_title_wikidata_image, h5, h4, h3, h2]

end WPTools

namespace WPTools

/-- C4: once `self.image` holds a non-empty value, applying infobox
image data (`set_pimage` inside `_set_parse_data`) or a Wikidata image
(the image branch of `_set_wikidata`, and `_set_wikidata` as a whole)
leaves `self.image` unchanged; the new URL is stored in
`image_infobox` (resp. `image_wikidata`) and recorded in the `images`
dict under `pimage` (resp. `wimage`); when `self.image` is empty, the
new image becomes `self.image` instead. -/
theorem c4_image_not_clobbered (u : Utils) :
    (∀ (s : State) (dic : List (String × String)) (key img : String) (sP : State),
        alookup dic key = some img → set_pimage u s dic key = some sP →
        sP.images = dictInsert s.images "pimage" (.str (stripLinkBrackets img))
        ∧ (truthyPV s.image = true →
            sP.image = s.image
            ∧ sP.image_infobox
                = some (u.media_url (.str (stripLinkBrackets img)) (some s.lang)))
        ∧ (truthyPV s.image = false →
            sP.image = some (.str (u.media_url (.str (stripLinkBrackets img)) (some s.lang)))
            ∧ sP.image_infobox = s.image_infobox))
    ∧ (∀ (s : State) (st : WdStored),
        alookup s.wikidata "image" = some st → storedTruthy st = true →
        (wd_image_step u s).images
          = dictInsert s.images "wimage" (pvToImg (wdImagePv u st))
        ∧ (truthyPV s.image = true →
            (wd_image_step u s).image = s.image
            ∧ (wd_image_step u s).image_wikidata = some (wdImagePv u st))
        ∧ (truthyPV s.image = false →
            (wd_image_step u s).image = some (wdImagePv u st)
            ∧ (wd_image_step u s).image_wikidata = s.image_wikidata))
    ∧ (∀ (s sP : State), truthyPV s.image = true → set_parse_data u s = .ok sP →
        sP.image = s.image)
    ∧ (∀ (s sW : State), truthyPV s.image = true → set_wikidata u s = .ok sW →
        sW.image = s.image) := by
  refine ⟨?_, ?_, set_parse_preserves_image u, set_wikidata_preserves_image u⟩
  · intro s dic key img sP hl hok
    unfold set_pimage at hok
    rw [hl] at hok
    by_cases himg : truthyPV s.image = true
    · simp only [himg, if_true, Option.some.injEq] at hok
      subst hok
      refine ⟨rfl, fun _ => ⟨rfl, rfl⟩, fun hf => ?_⟩
      rw [himg] at hf
      exact absurd hf (by simp)
    · rw [Bool.not_eq_true] at himg
      simp only [himg, Bool.false_eq_true, if_false, Option.some.injEq] at hok
      subst hok
      refine ⟨rfl, fun ht => ?_, fun _ => ⟨rfl, rfl⟩⟩
      rw [himg] at ht
      exact absurd ht (by simp)
  · intro s st hl ht
    by_cases himg : truthyPV s.image = true
    · have hres : wd_image_step u s
          = { s with image_wikidata := some (wdImagePv u st),
                     images := dictInsert s.images "wimage" (pvToImg (wdImagePv u st)) } := by
        rw [wd_image_step_eq u s st hl ht, if_pos himg]
      rw [hres]
      exact ⟨rfl, fun _ => ⟨rfl, rfl⟩,
        fun hf => absurd (himg.symm.trans hf) (by simp)⟩
    · have hres : wd_image_step u s
          = { s with image := some (wdImagePv u st),
                     images := dictInsert s.images "wimage" (pvToImg (wdImagePv u st)) } := by
        rw [wd_image_step_eq u s st hl ht, if_neg himg]
      rw [hres]
      exact ⟨rfl, fun ht2 => absurd ht2 himg, fun _ => ⟨rfl, rfl⟩⟩

/-- Witness for C4 at concrete inputs: with `image` already set,
`set_pimage` and `_set_wikidata` leave it unchanged and store the new
URL next to it. -/
theorem c4_image_not_clobbered_witness :
    sPimRes.image = sPimTest.image
    ∧ sPimRes.image_infobox
        = some (uTest.media_url (.str (stripLinkBrackets "[[F.jpg]]")) (some sPimTest.lang))
    ∧ sWdRes.image = sWdTest.image :=
  ⟨(((c4_image_not_clobbered uTest).1 sPimTest dicTest "image" "[[F.jpg]]" sPimRes
      rfl rfl).2.1 (by decide)).1,
   (((c4_image_not_clobbered uTest).1 sPimTest dicTest "image" "[[F.jpg]]" sPimRes
      rfl rfl).2.1 (by decide)).2,
   (c4_image_not_clobbered uTest).2.2.2 sWdTest sWdRes (by decide) rfl⟩

end WPTools

namespace WPTools

theorem rest_lead_step_frame (u : Utils) (cache : GCache RestPayload)
    (data : RestPayload) (s : State) :
    (rest_lead_step u cache data s).description = s.description
    ∧ (rest_lead_step u cache data s).modified = s.modified
    ∧ (rest_lead_step u cache data s).title = s.title
    ∧ (rest_lead_step u cache data s).thumbnail = s.thumbnail := by
  refine ⟨?_, ?_, ?_, ?_⟩ <;>
    (unfold rest_lead_step rest_html_assign rest_lead_assign
     repeat' split
     all_goals rfl)

theorem rest_desc_step_desc (s : State) (data : RestPayload)
    (h : truthyS data.description = true) :
    (rest_desc_step s data).description = data.description := by
  simp [rest_desc_step, h]

theorem rest_desc_step_thumbnail (s : State) (data : RestPayload) :
    (rest_desc_step s data).thumbnail = s.thumbnail := by
  unfold rest_desc_step
  split <;> rfl

theorem rest_image_step_desc (u : Utils) (s : State) (data : RestPayload) :
    (rest_image_step u s data).description = s.description := by
  unfold rest_image_step
  repeat' split
  all_goals rfl

theorem rest_image_step_thumbnail (u : Utils) (s : State) (data : RestPayload) :
    (rest_image_step u s data).thumbnail = s.thumbnail := by
  unfold rest_image_step
  repeat' split
  all_goals rfl

theorem rest_thumb_step_desc (u : Utils) (q : String) (s : State) (data : RestPayload) :
    (rest_thumb_step u q s data).description = s.description := by
  unfold rest_thumb_step
  repeat' split
  all_goals rfl

theorem rest_thumb_step_thumb (u : Utils) (q : String) (s : State) (data : RestPayload)
    (th : List (String × String)) (h : data.thumb = some th)
    (hne : th.isEmpty = false) :
    (rest_thumb_step u q s data).thumbnail
      = some (u.url_scheme q ++ ":" ++ pyStr (alookup th "url")) := by
  unfold rest_thumb_step
  rw [h]
  simp [hne]

/-- C5 (amended): when the RESTBase data-setting step succeeds, the new
truthy `description`, the `lastmodified` value, the effective title and
(for a non-empty `thumb`) the new thumbnail are written over whatever
the state held before, for every prior state. -/
theorem c5_rest_overwrites (u : Utils) (s : State) (cache : GCache RestPayload)
    (data : RestPayload) (t : String) (sR : State)
    (hg : s.g_rest = some cache) (hr : cache.response = some data)
    (hd : rest_detail_error data = none) (ht : rest_title data = some t)
    (hok : set_rest_data u s = .ok sR) :
    (truthyS data.description = true → sR.description = data.description)
    ∧ sR.modified = data.lastmodified
    ∧ sR.title = some (replace_spaces t)
    ∧ (∀ th, data.thumb = some th → th.isEmpty = false →
        sR.thumbnail = some (u.url_scheme cache.query ++ ":"
          ++ pyStr (alookup th "url"))) := by
  unfold set_rest_data at hok
  simp only [hg, hr, hd, ht] at hok
  injection hok with h
  subst h
  obtain ⟨hfd, hfm, hft, hfth⟩ := rest_lead_step_frame u cache data _
  refine ⟨?_, ?_, ?_, ?_⟩
  · intro hdesc
    rw [hfd]
    show (rest_thumb_step u cache.query
        (rest_image_step u (rest_desc_step s data) data) data).description
      = data.description
    rw [rest_thumb_step_desc, rest_image_step_desc, rest_desc_step_desc s data hdesc]
  · rw [hfm]
  · rw [hft]
  · intro th hth hne
    rw [hfth]
    show (rest_thumb_step u cache.query
        (rest_image_step u (rest_desc_step s data) data) data).thumbnail
      = some (u.url_scheme cache.query ++ ":" ++ pyStr (alookup th "url"))
    rw [rest_thumb_step_thumb u cache.query _ data th hth hne]

/-- C5 counterexample: the claim as stated is false on the code.  With
`description = "old"`, `thumbnail = "oldthumb"`, `title = "Old_Title"`
and `modified = "2019-01-01"` already reconciled, a RESTBase response
carrying different values silently overwrites all of them —
`_set_rest_data`'s `__setattr` calls are commented out, so nothing is
kept and no suffixed attribute is recorded. -/
theorem c5_counterexample :
    sC5.description = some "old"
    ∧ set_rest_data uTest sC5 = .ok sC5Res
    ∧ sC5Res.description = some "new"
    ∧ sC5Res.description ≠ sC5.description
    ∧ sC5Res.thumbnail = some "https:/th.jpg"
    ∧ sC5Res.thumbnail ≠ sC5.thumbnail
    ∧ sC5Res.title = some "New_Title"
    ∧ sC5Res.title ≠ sC5.title
    ∧ sC5Res.modified ≠ sC5.modified := by
  refine ⟨rfl, rfl, ?_, ?_, ?_, ?_, ?_, ?_, ?_⟩ <;> decide

/-- Witness for the amended C5 at the concrete C5 inputs. -/
theorem c5_rest_overwrites_witness :
    sC5Res.description = restDataC5.description
    ∧ sC5Res.modified = restDataC5.lastmodified
    ∧ sC5Res.title = some (replace_spaces "New Title")
    ∧ sC5Res.thumbnail = some (uTest.url_scheme gRestC5.query ++ ":"
        ++ pyStr (alookup [("url", "/th.jpg")] "url")) :=
  ⟨(c5_rest_overwrites uTest sC5 gRestC5 restDataC5 "New Title" sC5Res
      rfl rfl rfl rfl rfl).1 (by decide),
   (c5_rest_overwrites uTest sC5 gRestC5 restDataC5 "New Title" sC5Res
      rfl rfl rfl rfl rfl).2.1,
   (c5_rest_overwrites uTest sC5 gRestC5 restDataC5 "New Title" sC5Res
      rfl rfl rfl rfl rfl).2.2.1,
   (c5_rest_overwrites uTest sC5 gRestC5 restDataC5 "New Title" sC5Res
      rfl rfl rfl rfl rfl).2.2.2 [("url", "/th.jpg")] rfl rfl⟩

end WPTools

namespace WPTools

theorem space_not_mem_replace_spaces (s : String) : ' ' ∉ (replace_spaces s).data := by
  intro hmem
  obtain ⟨c, _, hc⟩ := List.mem_map.mp hmem
  by_cases h : c = ' ' <;> simp [h] at hc

theorem titleNoSpace_step {s s2 : State} (hp : titlePreserved s s2)
    (hs : titleNoSpace s) : titleNoSpace s2 := by
  rcases hp with hp | ⟨raw, hp⟩
  · intro t ht
    exact hs t (hp ▸ ht)
  · intro t ht
    rw [hp] at ht
    injection ht with h
    subst h
    exact space_not_mem_replace_spaces raw

theorem init_state_titleNoSpace (a l : Option String) (p : Option Nat)
    (w : Option String) : titleNoSpace (init_state a l p w) := by
  intro t ht
  unfold init_state at ht
  rcases a with _ | a0
  · simp at ht
  · simp only [] at ht
    by_cases he : a0.data.isEmpty = true
    · simp [he] at ht
    · simp only [he, Bool.false_eq_true, if_false, Option.some.injEq] at ht
      subst ht
      exact space_not_mem_replace_spaces a0

theorem show_apply_titleNoSpace (b : Bool) {s : State} (hs : titleNoSpace s) :
    titleNoSpace (show_apply b s) := by
  unfold show_apply
  split
  · exact hs
  · exact hs

theorem set_pimage_title (u : Utils) (s s2 : State) (dic : List (String × String))
    (key : String) (hok : set_pimage u s dic key = some s2) : s2.title = s.title := by
  unfold set_pimage at hok
  split at hok
  · exact absurd hok (by simp)
  · by_cases himg : truthyPV s.image = true
    · simp only [himg, if_true, Option.some.injEq] at hok
      subst hok; rfl
    · rw [Bool.not_eq_true] at himg
      simp only [himg, Bool.false_eq_true, if_false, Option.some.injEq] at hok
      subst hok; rfl

theorem parse_infobox_step_title (u : Utils) (s s2 : State) (pdata : ParseData)
    (hok : parse_infobox_step u s pdata = some s2) : s2.title = s.title := by
  unfold parse_infobox_step at hok
  split at hok
  · injection hok with h; subst h; rfl
  · rename_i ib heqib
    split at hok
    · injection hok with h; subst h; rfl
    · split at hok
      · exact set_pimage_title u { s with infobox := some ib } s2 ib "image" hok
      · split at hok
        · exact set_pimage_title u { s with infobox := some ib } s2 ib "Cover" hok
        · injection hok with h; subst h; rfl

theorem parse_title_step_titleP (s s2 : State) (pdata : ParseData)
    (hok : parse_title_step s pdata = .ok s2) : titlePreserved s s2 := by
  unfold parse_title_step at hok
  split at hok
  · injection hok with h; subst h; exact Or.inl rfl
  · split at hok
    · exact absurd hok (by simp)
    · injection hok with h
      subst h
      rename_i t heq
      exact Or.inr ⟨t, rfl⟩

theorem parse_tail_step_title (u : Utils) (s s2 : State) (pdata : ParseData)
    (hok : parse_tail_step u s pdata = .ok s2) : s2.title = s.title := by
  unfold parse_tail_step at hok
  split at hok
  · exact absurd hok (by simp)
  · injection hok with h; subst h; rfl

theorem set_parse_data_titleP (u : Utils) (s sP : State)
    (hok : set_parse_data u s = .ok sP) : titlePreserved s sP := by
  unfold set_parse_data at hok
  rcases hg : s.g_parse with _ | cache
  · simp [hg] at hok
  · simp only [hg] at hok
    rcases hr : cache.response with _ | data
    · simp only [hr] at hok
      injection hok with h
      subst h
      exact Or.inl rfl
    · simp only [hr] at hok
      rcases hp : data.parse with _ | pdata
      · simp [hp] at hok
      · simp only [hp] at hok
        rcases hi : parse_infobox_step u s pdata with _ | s2
        · simp [hi] at hok
        · simp only [hi] at hok
          rcases ht : parse_title_step
              { s2 with links := u.get_links pdata.iwlinks,
                        pageid := pdata.pageid,
                        parsetree := pdata.parsetree } pdata with e | s4
          · simp [ht] at hok
          · simp only [ht] at hok
            have h2 : s2.title = s.title := parse_infobox_step_title u s s2 pdata hi
            have h4 := parse_title_step_titleP _ s4 pdata ht
            have h5 : sP.title = s4.title := parse_tail_step_title u s4 sP pdata hok
            rcases h4 with h4 | ⟨raw, h4⟩
            · exact Or.inl (by rw [h5, h4]; exact h2)
            · exact Or.inr ⟨raw, by rw [h5, h4]⟩

theorem query_pre_title (u : Utils) (s : State) (page : QueryPage) :
    (query_pageprops_step u
        (query_thumbnail_step (query_pageimage_step u (query_extract_step u s page) page)
          page) page).title = s.title := by
  have h1 : (query_extract_step u s page).title = s.title := by
    unfold query_extract_step
    repeat' split
    all_goals rfl
  have h2 : ∀ x : State, (query_pageimage_step u x page).title = x.title := by
    intro x
    unfold query_pageimage_step
    repeat' split
    all_goals rfl
  have h3 : ∀ x : State, (query_thumbnail_step x page).title = x.title := by
    intro x
    unfold query_thumbnail_step
    repeat' split
    all_goals rfl
  have h4 : ∀ x : State, (query_pageprops_step u x page).title = x.title := by
    intro x
    unfold query_pageprops_step
    repeat' split
    all_goals rfl
  rw [h4, h3, h2, h1]

theorem query_title_step_titleP (s s2 : State) (page : QueryPage)
    (hok : query_title_step s page = .ok s2) : titlePreserved s s2 := by
  unfold query_title_step at hok
  split at hok
  · injection hok with h; subst h; exact Or.inl rfl
  · split at hok
    · exact absurd hok (by simp)
    · injection hok with h
      subst h
      rename_i t heq
      exact Or.inr ⟨t, rfl⟩

theorem query_url_step_title (s : State) (page : QueryPage) :
    (query_url_step s page).title = s.title := by
  unfold query_url_step
  repeat' split
  all_goals rfl

theorem set_query_data_titleP (u : Utils) (s sP : State)
    (hok : set_query_data u s = .ok sP) : titlePreserved s sP := by
  unfold set_query_data at hok
  rcases hg : s.g_query with _ | cache
  · simp [hg] at hok
  · simp only [hg] at hok
    rcases hr : cache.response with _ | data
    · simp only [hr] at hok
      injection hok with h
      subst h
      exact Or.inl rfl
    · simp only [hr] at hok
      rcases hq : data.query with _ | qdata
      · simp [hq] at hok
      · simp only [hq] at hok
        rcases hpg : qdata.pages with _ | (_ | ⟨page, prest⟩)
        · simp [hpg] at hok
        · simp [hpg] at hok
        · simp only [hpg] at hok
          split at hok
          · exact absurd hok (by simp)
          · rcases hrd : qdata.random with _ | (_ | ⟨r, rrest⟩)
            · simp [hrd] at hok
            · simp [hrd] at hok
            · simp only [hrd] at hok
              split at hok
              · exact absurd hok (by simp)
              · rename_i s7 hts
                injection hok with h
                subst h
                have hpre := query_pre_title u s page
                have h7 := query_title_step_titleP _ s7 page hts
                rcases h7 with h7 | ⟨raw, h7⟩
                · refine Or.inl ?_
                  rw [query_url_step_title, h7]
                  simpa using hpre
                · exact Or.inr ⟨raw, by rw [query_url_step_title, h7]⟩

theorem set_rest_data_titleP (u : Utils) (s sR : State)
    (hok : set_rest_data u s = .ok sR) : titlePreserved s sR := by
  unfold set_rest_data at hok
  rcases hg : s.g_rest with _ | cache
  · simp [hg] at hok
  · simp only [hg] at hok
    rcases hr : cache.response with _ | data
    · simp only [hr] at hok
      injection hok with h
      subst h
      exact Or.inl rfl
    · simp only [hr] at hok
      rcases hd : rest_detail_error data with _ | e
      · simp only [hd] at hok
        rcases ht : rest_title data with _ | t
        · simp [ht] at hok
        · simp only [ht] at hok
          injection hok with h
          subst h
          refine Or.inr ⟨t, ?_⟩
          rw [(rest_lead_step_frame u cache data _).2.2.1]
      · simp only [hd] at hok
        injection hok with h
        subst h
        exact Or.inl rfl

theorem marshalVals_title (label : String) (vs : List WdValue) : ∀ s : State,
    (marshalVals s label vs).title = s.title := by
  induction vs with
  | nil => intro s; rfl
  | cons v rest ih =>
    intro s
    cases v with
    | str q =>
      by_cases hq : isQid (.str q) = true <;> simp [marshalVals, hq, ih]
    | obj e => simp [marshalVals, ih]
    | null => simp [marshalVals, ih]

theorem marshalProps_title (props : List (String × List WdValue)) : ∀ s : State,
    (marshalProps s props).title = s.title := by
  induction props with
  | nil => intro s; rfl
  | cons p rest ih =>
    intro s
    simp [marshalProps, ih, marshalVals_title]

theorem marshal_claims_title (s s2 : State) (qc : List (String × List (Option WdValue)))
    (hok : marshal_claims s qc = .ok s2) : s2.title = s.title := by
  unfold marshal_claims at hok
  split at hok
  · exact absurd hok (by simp)
  · injection hok with h
    subst h
    simp [marshalProps_title]

theorem wd_desc_step_title (s : State) (item : WdEntity) :
    (wd_desc_step s item).title = s.title := by
  unfold wd_desc_step
  split <;> rfl

theorem wd_image_step_title (u : Utils) (s : State) :
    (wd_image_step u s).title = s.title := by
  unfold wd_image_step
  split
  · rfl
  · split
    · rfl
    · by_cases himg : truthyPV s.image = true <;> simp [himg]

theorem wd_label_step_title (s : State) (item : WdEntity) :
    (wd_label_step s item).title = s.title := by
  unfold wd_label_step
  split <;> rfl

theorem sitelinks_fold_titleP (links : List (String × String)) :
    ∀ acc : State,
    (links.foldl
      (fun acc kv =>
        if kv.1 = acc.lang ++ "wiki" then
          { acc with title := some (replace_spaces kv.2) }
        else acc) acc).title = acc.title
    ∨ ∃ raw, (links.foldl
      (fun acc kv =>
        if kv.1 = acc.lang ++ "wiki" then
          { acc with title := some (replace_spaces kv.2) }
        else acc) acc).title = some (replace_spaces raw) := by
  induction links with
  | nil => intro acc; exact Or.inl rfl
  | cons kv rest ih =>
    intro acc
    by_cases h : kv.1 = acc.lang ++ "wiki"
    · simp only [List.foldl_cons, h, if_pos]
      rcases ih { acc with title := some (replace_spaces kv.2) } with h2 | ⟨raw, h2⟩
      · refine Or.inr ⟨kv.2, ?_⟩
        simp only [h2]
      · exact Or.inr ⟨raw, h2⟩
    · simp only [List.foldl_cons, h, if_neg, if_false]
      exact ih acc

theorem stw_sitelinks_titleP (s : State) (item : WdEntity) :
    titlePreserved s (stw_sitelinks s item) := by
  unfold stw_sitelinks
  split
  · rcases sitelinks_fold_titleP (item.sitelinks.getD []) s with h | ⟨raw, h⟩
    · exact Or.inl h
    · exact Or.inr ⟨raw, h⟩
  · exact Or.inl rfl

theorem set_title_wikidata_titleP (s : State) (item : WdEntity) :
    titlePreserved s (set_title_wikidata s item) := by
  unfold set_title_wikidata
  split
  · exact Or.inr ⟨pyStr (stw_sitelinks s item).label, rfl⟩
  · exact stw_sitelinks_titleP s item

theorem set_wikidata_titleP (u : Utils) (s sW : State)
    (hok : set_wikidata u s = .ok sW) : titlePreserved s sW := by
  unfold set_wikidata at hok
  rcases hg : s.g_wikidata with _ | cache
  · simp [hg] at hok
  · simp only [hg] at hok
    rcases hr : cache.response with _ | data
    · simp only [hr] at hok
      injection hok with h
      subst h
      exact Or.inl rfl
    · simp only [hr] at hok
      rcases he : data.entities with _ | (_ | ⟨⟨k, item⟩, rest⟩)
      · simp [he] at hok
      · simp [he] at hok
      · simp only [he] at hok
        split at hok
        · exact absurd hok (by simp)
        · rcases hc : item.claims with _ | qc
          · simp [hc] at hok
          · simp only [hc] at hok
            split at hok
            · exact absurd hok (by simp)
            · rename_i s2 hm
              injection hok with h
              subst h
              have h2 : s2.title = s.title := by
                have := marshal_claims_title _ s2 qc hm
                simpa using this
              have hX : (wd_label_step (wd_image_step u (wd_desc_step s2 item)) item).title
                  = s.title := by
                rw [wd_label_step_title, wd_image_step_title, wd_desc_step_title, h2]
              have h6 := set_title_wikidata_titleP
                (wd_label_step (wd_image_step u (wd_desc_step s2 item)) item) item
              rcases h6 with h6 | ⟨raw, h6⟩
              · refine Or.inl ?_
                show (set_title_wikidata _ item).title = s.title
                rw [h6, hX]
              · exact Or.inr ⟨raw, h6⟩

theorem claimsFold_title (lang : String) (cm : List (String × String))
    (ents : List (String × WdEntity)) : ∀ s s2 : State,
    claimsFold lang cm s ents = .ok s2 → s2.title = s.title := by
  induction ents with
  | nil =>
    intro s s2 hok
    unfold claimsFold at hok
    injection hok with h
    subst h
    rfl
  | cons kv rest ih =>
    intro s s2 hok
    unfold claimsFold at hok
    split at hok
    · exact absurd hok (by simp)
    · have := ih _ s2 hok
      simpa using this

theorem get_claims_titleP (f : GCache ClaimsPayload) (b : Bool) (s : State) (sC : State)
    (r : Option Unit) (hok : get_claims f b s = .ok (sC, r)) : sC.title = s.title := by
  unfold get_claims at hok
  split at hok
  · injection hok with h
    injection h with h1 h2
    subst h1
    rfl
  · split at hok
    · injection hok with h
      injection h with h1 h2
      subst h1
      rfl
    · rcases hr : f.response with _ | data
      · simp [hr] at hok
      · simp only [hr] at hok
        rcases he : data.entities with _ | ents
        · simp [he] at hok
        · simp only [he] at hok
          split at hok
          · exact absurd hok (by simp)
          · rename_i s2 hfold
            injection hok with h
            injection h with h1 h2
            subst h1
            have hfold2 : s2.title = s.title := by
              have := claimsFold_title s.lang s.claims ents _ s2 hfold
              simpa using this
            unfold show_apply
            split
            · simpa using hfold2
            · simpa using hfold2

theorem show_apply_title (b : Bool) (s : State) : (show_apply b s).title = s.title := by
  unfold show_apply
  split <;> rfl

theorem get_random_titleP (f : GCache RandomPayload) (b : Bool) (s sR : State)
    (r : Option Unit) (hok : get_random f b s = .ok (sR, r)) : titlePreserved s sR := by
  unfold get_random at hok
  rcases hr : f.response with _ | data
  · simp only [hr] at hok
    injection hok with h
    injection h with h1 h2
    subst h1
    exact Or.inl rfl
  · simp only [hr] at hok
    rcases hq : data.query with _ | q
    · simp [hq] at hok
    · simp only [hq] at hok
      rcases hrd : q.random with _ | (_ | ⟨rd, rrest⟩)
      · simp [hrd] at hok
      · simp [hrd] at hok
      · simp only [hrd] at hok
        split at hok
        · exact absurd hok (by simp)
        · rename_i s2 hstep
          injection hok with h
          injection h with h1 h2
          subst h1
          split at hstep
          · injection hstep with hs2
            subst hs2
            exact Or.inl (by rw [show_apply_title])
          · split at hstep
            · exact absurd hstep (by simp)
            · rename_i t heq
              injection hstep with hs2
              subst hs2
              exact Or.inr ⟨t, by rw [show_apply_title]⟩

end WPTools

namespace WPTools

theorem gw_claims_phase_titleNoSpace (fc : GCache ClaimsPayload) (b g : Bool)
    (s s2 : State) (hs : titleNoSpace s) (hs2 : titleNoSpace s2) :
    titleNoSpace (exceptD2 s (gw_claims_phase fc b g s2)) := by
  unfold gw_claims_phase
  split
  · rcases hc : get_claims fc false s2 with e | s3r
    · exact hs
    · obtain ⟨s3, r3⟩ := s3r
      show titleNoSpace (show_apply b s3)
      refine show_apply_titleNoSpace b ?_
      intro t ht
      rw [get_claims_titleP fc false s2 s3 r3 hc] at ht
      exact hs2 t ht
  · exact show_apply_titleNoSpace b hs2

theorem get_wikidata_main_titleNoSpace (u : Utils) (fw : GCache WdPayload)
    (fc : GCache ClaimsPayload) (b g : Bool) (s : State) (hs : titleNoSpace s) :
    titleNoSpace (exceptD2 s (get_wikidata_main u fw fc b g s)) := by
  unfold get_wikidata_main
  rcases hok : set_wikidata u { s with g_wikidata := some fw } with e | s2
  · exact hs
  · exact gw_claims_phase_titleNoSpace fc b g s s2 hs
      (titleNoSpace_step (set_wikidata_titleP u _ s2 hok) hs)

theorem op_apply_titleNoSpace (op : Op) (s : State) (hs : titleNoSpace s) :
    titleNoSpace (Op.apply s op) := by
  cases op with
  | opInit a l p w => exact init_state_titleNoSpace a l p w
  | opSetParse u =>
    simp only [Op.apply]
    rcases hok : set_parse_data u s with e | s2
    · exact hs
    · exact titleNoSpace_step (set_parse_data_titleP u s s2 hok) hs
  | opSetQuery u =>
    simp only [Op.apply]
    rcases hok : set_query_data u s with e | s2
    · exact hs
    · exact titleNoSpace_step (set_query_data_titleP u s s2 hok) hs
  | opSetRest u =>
    simp only [Op.apply]
    rcases hok : set_rest_data u s with e | s2
    · exact hs
    · exact titleNoSpace_step (set_rest_data_titleP u s s2 hok) hs
  | opSetWikidata u =>
    simp only [Op.apply]
    rcases hok : set_wikidata u s with e | s2
    · exact hs
    · exact titleNoSpace_step (set_wikidata_titleP u s s2 hok) hs
  | opSetTitleWikidata item =>
    exact titleNoSpace_step (set_title_wikidata_titleP s item) hs
  | opGetParse u f b =>
    simp only [Op.apply]
    unfold get_parse
    split
    · exact hs
    · split
      · exact hs
      · rcases hok : set_parse_data u { s with g_parse := some f } with e | s2
        · exact hs
        · exact show_apply_titleNoSpace b
            (titleNoSpace_step (set_parse_data_titleP u _ s2 hok) hs)
  | opGetQuery u f b =>
    simp only [Op.apply]
    unfold get_query
    split
    · exact hs
    · split
      · exact hs
      · rcases hok : set_query_data u { s with g_query := some f } with e | s2
        · exact hs
        · exact show_apply_titleNoSpace b
            (titleNoSpace_step (set_query_data_titleP u _ s2 hok) hs)
  | opGetRest u f b =>
    simp only [Op.apply]
    unfold get_rest
    split
    · exact hs
    · split
      · exact hs
      · rcases hok : set_rest_data u { s with g_rest := some f } with e | s2
        · exact hs
        · exact show_apply_titleNoSpace b
            (titleNoSpace_step (set_rest_data_titleP u _ s2 hok) hs)
  | opGetWikidata u fw fc b g =>
    simp only [Op.apply]
    unfold get_wikidata
    split
    · exact hs
    · split
      · exact get_wikidata_main_titleNoSpace u fw fc b g s hs
      · split
        · exact get_wikidata_main_titleNoSpace u fw fc b g s hs
        · exact hs
  | opGetClaims f b =>
    simp only [Op.apply]
    rcases hok : get_claims f b s with e | s3r
    · exact hs
    · obtain ⟨s3, r3⟩ := s3r
      show titleNoSpace s3
      intro t ht
      rw [get_claims_titleP f b s s3 r3 hok] at ht
      exact hs t ht
  | opGetRandom f b =>
    simp only [Op.apply]
    rcases hok : get_random f b s with e | s3r
    · exact hs
    · obtain ⟨s3, r3⟩ := s3r
      show titleNoSpace s3
      exact titleNoSpace_step (get_random_titleP f b s s3 r3 hok) hs

/-- C8: the title never contains a space character.  Every operation
that assigns `self.title` (`__init__`, `_set_parse_data`,
`_set_query_data`, `_set_rest_data`, `__set_title_wikidata`, and also
`get_random` and the request methods that call these) first replaces
every space with an underscore, so after any sequence of operations
starting from a state whose title has no space, the title still has no
space. -/
theorem c8_title_no_space (ops : List Op) : ∀ s : State, titleNoSpace s →
    titleNoSpace (ops.foldl Op.apply s) := by
  induction ops with
  | nil => intro s hs; exact hs
  | cons op rest ih =>
    intro s hs
    simp only [List.foldl_cons]
    exact ih (Op.apply s op) (op_apply_titleNoSpace op s hs)

/-- Witness for C8: a session that constructs the object with a spaced
title and then applies the Wikidata title logic keeps the no-space
invariant. -/
theorem c8_title_no_space_witness :
    titleNoSpace (([Op.opInit (some "New Title") none none none,
        Op.opSetTitleWikidata wdItemTest] : List Op).foldl Op.apply {}) :=
  c8_title_no_space
    [Op.opInit (some "New Title") none none none, Op.opSetTitleWikidata wdItemTest]
    {} (fun _ ht => Option.noConfusion ht)

end WPTools
